import Mathlib

/-! Startup configuration of the Android emulator (android/main-common.c)

A shallow embedding of the partition sizing, image-path resolution and skin
geometry code of `android/main-common.c`, with the properties of its
specification stated over it.

Conventions of the embedding:
* `uint64_t` and `unsigned` values are natural numbers, every operation that
  can leave the type's range is reduced modulo `2^64` resp. `2^32`;
* `int` values are integers, the result of an `int` operation is brought back
  into `[-2^31, 2^31)` by two's-complement wrap-around (`wrapInt32`);
* a `char*` is an `Option String`, `none` being `NULL`;
* `exit(n)` is the error side of `Except`;
* `android/config.c` (the `AConfig` tree and its reader) is not among the
  sources and is modelled from the specification.
-/

namespace AndroidEmulator

/-! ## Megabyte conversions -/

/-- Modelled from the spec: the constant `ONE_MB` (one megabyte, "1MB") comes
from android/main-common.h, which is not among the sources; the code shifts by
20 bits next to it. -/
def ONE_MB : Nat := 1024 * 1024

/-- The largest `unsigned` value (32 bits). -/
def UINT_MAX : Nat := 2 ^ 32 - 1

/-- `unsigned convertBytesToMB(uint64_t size)`. -/
def convertBytesToMB (size : Nat) : Nat :=
  if size = 0 then 0
  else
    let size1 := ((size + ONE_MB - 1) % 2 ^ 64) >>> 20
    let size2 := if size1 > UINT_MAX then UINT_MAX else size1
    size2 % 2 ^ 32

/-- `uint64_t convertMBToBytes(unsigned megaBytes)`. -/
def convertMBToBytes (megaBytes : Nat) : Nat :=
  ((megaBytes % 2 ^ 32) <<< 20) % 2 ^ 64

/-- `_adjustPartitionSize(description, imageBytes, defaultBytes, inAndroidBuild)`:
the returned size, paired with whether the adjustment warning is printed. -/
def _adjustPartitionSize (imageBytes defaultBytes : Nat) (inAndroidBuild : Bool) :
    Nat × Bool :=
  if imageBytes ≤ defaultBytes then (defaultBytes, false)
  else
    let imageMB := convertBytesToMB imageBytes
    (convertMBToBytes imageMB, inAndroidBuild)

/-! ## C library routines used by the code -/

/-- C `isspace` in the "C" locale. -/
def isspace (c : Char) : Bool :=
  c.toNat == 32 || (9 ≤ c.toNat && c.toNat ≤ 13)

/-- C `isdigit`. -/
def isdigit (c : Char) : Bool :=
  48 ≤ c.toNat && c.toNat ≤ 57

/-- Value of a character read as a digit of `strtol` (letters count from 10);
36 for a character that is no digit in any base. -/
def digitValue (c : Char) : Nat :=
  if isdigit c then c.toNat - 48
  else if 97 ≤ c.toNat ∧ c.toNat ≤ 122 then c.toNat - 97 + 10
  else if 65 ≤ c.toNat ∧ c.toNat ≤ 90 then c.toNat - 65 + 10
  else 36

/-- The digit loop of `strtol`: the accumulated value and the unread rest. -/
def strtolDigits (base : Nat) : List Char → Nat → Nat × List Char
  | [], acc => (acc, [])
  | c :: cs, acc =>
    if digitValue c < base then strtolDigits base cs (acc * base + digitValue c)
    else (acc, c :: cs)

/-- C `strtol(nptr, &end, base)` for `base` 0 or 10 on a platform whose
`LONG_MAX` is `longMax`: the value (clamped to the range of `long`) and the
text `end` points to. -/
def strtol (longMax : Int) (nptr : List Char) (base : Nat) : Int × List Char :=
  let cs := nptr.dropWhile isspace
  let signed : Bool × List Char :=
    match cs with
    | '-' :: r => (true, r)
    | '+' :: r => (false, r)
    | _ => (false, cs)
  let based : Nat × List Char :=
    if base = 0 then
      match signed.2 with
      | '0' :: x :: d :: r =>
        if (x = 'x' ∨ x = 'X') ∧ digitValue d < 16 then (16, d :: r) else (8, signed.2)
      | '0' :: _ => (8, signed.2)
      | _ => (10, signed.2)
    else (base, signed.2)
  match based.2 with
  | [] => (0, nptr)
  | d :: _ =>
    if digitValue d < based.1 then
      let r := strtolDigits based.1 based.2 0
      let v : Int := if signed.1 then -(r.1 : Int) else (r.1 : Int)
      (max (-longMax - 1) (min longMax v), r.2)
    else (0, nptr)

/-- Conversion of a wider integer to `int` (32 bits, two's complement). -/
def wrapInt32 (x : Int) : Int :=
  (x + 2 ^ 31) % 2 ^ 32 - 2 ^ 31

/-- C `atoi`, which is `(int) strtol(nptr, NULL, 10)`. -/
def atoi (longMax : Int) (nptr : List Char) : Int :=
  wrapInt32 (strtol longMax nptr 10).1

/-! ## The world outside the program -/

/-- What the code asks of the platform and the filesystem. -/
structure Host where
  /-- `LONG_MAX` of limits.h. -/
  LONG_MAX : Int
  /-- `path_exists` of android/utils/path.h. -/
  path_exists : String → Bool
  /-- `path_is_dir` of android/utils/path.h. -/
  path_is_dir : String → Bool
  /-- The size `path_get_size` stores for a path. -/
  path_get_size : String → Nat
  /-- The text of a readable file, for `aconfig_load_file`. -/
  fileText : String → Option String
  /-- The built-in resource `android_resource_find("layout", _)`. -/
  layoutResource : Option String

/-- The kinds of image of android/avd/info.h. -/
inductive AvdImageType where
  | AVD_IMAGE_KERNEL
  | AVD_IMAGE_RAMDISK
  | AVD_IMAGE_INITSYSTEM
  | AVD_IMAGE_USERSYSTEM
  | AVD_IMAGE_INITDATA
  | AVD_IMAGE_USERDATA
  | AVD_IMAGE_CACHE
  | AVD_IMAGE_SDCARD
  | AVD_IMAGE_SNAPSHOTS
  deriving DecidableEq, Repr

open AvdImageType

/-- The device descriptor `AvdInfo`, seen through the two queries the code
makes: `avdInfo_getImageFile` and `avdInfo_getImageFileSize`. -/
structure AvdInfo where
  getImageFile : AvdImageType → Option String
  getImageFileSize : AvdImageType → Nat

/-- The options of `AndroidOptions` the code reads. -/
structure AndroidOptions where
  sysdir : Option String := none
  system : Option String := none
  image : Option String := none
  kernel : Option String := none
  ramdisk : Option String := none
  data : Option String := none
  datadir : Option String := none
  cache : Option String := none
  sdcard : Option String := none
  snapstorage : Option String := none
  partition_size : Option String := none
  avd : Option String := none
  skin : Option String := none
  skindir : Option String := none
  no_skin : Bool := false
  wipe_data : Bool := false
  no_cache : Bool := false
  no_snapstorage : Bool := false
  deriving DecidableEq, Repr

/-- The fields of `AndroidHwConfig` the code reads or writes. -/
structure AndroidHwConfig where
  disk_kernel_path : Option String := none
  disk_ramDisk_path : Option String := none
  disk_systemPartition_initPath : Option String := none
  disk_systemPartition_path : Option String := none
  disk_dataPartition_path : Option String := none
  disk_sdCard_path : Option String := none
  disk_cachePartition_path : Option String := none
  disk_snapshots_path : Option String := none
  disk_systemPartition_size : Nat
  disk_dataPartition_size : Nat
  hw_lcd_width : Int
  hw_lcd_height : Int
  hw_lcd_depth : Int
  deriving DecidableEq, Repr

/-- A call of `exit`: the status and the message printed before it. -/
structure Exit where
  status : Nat
  message : String
  deriving DecidableEq, Repr

deriving instance DecidableEq for Except

/-! ## Image paths and partition sizes -/

/-- `_is_valid_hw_disk_path(path)`. -/
def _is_valid_hw_disk_path (path : Option String) : Bool :=
  match path with
  | none => false
  | some p => if p = "" ∨ p = "<init>" then false else true

/-- `_update_hwconfig_path(&path, avd, image_type)`: the path left in the slot
and the returned status (0 or -1). -/
def _update_hwconfig_path (path : Option String) (avd : AvdInfo) (image_type : AvdImageType) :
    Option String × Int :=
  if !_is_valid_hw_disk_path path then
    let path1 := avd.getImageFile image_type
    if !_is_valid_hw_disk_path path1 then (path1, -1) else (path1, 0)
  else (path, 0)

/-- `_forceAvdImagePath(imageType, path, description, required)`, acting on the
table `android_avdParams->forcePaths`. -/
def _forceAvdImagePath (host : Host) (forcePaths : AvdImageType → Option String)
    (imageType : AvdImageType) (path : Option String) (required : Bool) :
    Except Exit (AvdImageType → Option String) :=
  match path with
  | none => .ok forcePaths
  | some p =>
    if required && !host.path_exists p then .error ⟨1, "Cannot find image file"⟩
    else .ok (fun t => if t = imageType then some p else forcePaths t)

/-- What `updateHwConfigFromAVD` leaves behind when it returns: the hardware
configuration and the partitions an adjustment warning was printed for. -/
structure HwUpdate where
  hwConfig : AndroidHwConfig
  warnings : List String
  deriving DecidableEq, Repr

/-- The `-partition-size` block of `updateHwConfigFromAVD`: the value of the
`unsigned` variable `defaultPartitionSize` after it. -/
def defaultPartitionSize (host : Host) (opts : AndroidOptions) : Except Exit Nat :=
  let initial : Nat := convertMBToBytes 66 % 2 ^ 32
  match opts.partition_size with
  | none => .ok initial
  | some text =>
    let parsed := strtol host.LONG_MAX text.toList 0
    let sizeMB : Int := parsed.1
    let minSizeMB : Int := 10
    let maxSizeMB : Int := host.LONG_MAX / (ONE_MB : Int)
    if sizeMB < 0 ∨ parsed.2 ≠ [] then
      .error ⟨1, "-partition-size must be followed by a positive integer"⟩
    else if sizeMB < minSizeMB ∨ sizeMB > maxSizeMB then
      .error ⟨1, "partition-size must be between minSizeMB and maxSizeMB"⟩
    else .ok ((sizeMB * (ONE_MB : Int)) % 2 ^ 32).toNat

/-- The data-partition block of `updateHwConfigFromAVD`: the size stored in
`disk_dataPartition_size` and whether the warning is printed. -/
def dataPartitionSize (host : Host) (avd : AvdInfo) (opts : AndroidOptions)
    (defaultPartitionSize : Nat) (inAndroidBuild : Bool) : Nat × Bool :=
  let dataPath0 := avd.getImageFile AVD_IMAGE_USERDATA
  let defaultBytes0 : Nat := defaultPartitionSize
  let defaultBytes : Nat :=
    if defaultBytes0 = 0 ∨ opts.partition_size.isSome then defaultPartitionSize else defaultBytes0
  let missing (p : Option String) : Bool :=
    match p with
    | none => true
    | some q => !host.path_exists q
  let dataPath := if missing dataPath0 || opts.wipe_data then avd.getImageFile AVD_IMAGE_INITDATA
    else dataPath0
  match dataPath with
  | none => (defaultBytes, false)
  | some q =>
    if !host.path_exists q then (defaultBytes, false)
    else _adjustPartitionSize (host.path_get_size q % 2 ^ 64) defaultBytes inAndroidBuild

/-- `updateHwConfigFromAVD(hwConfig, avd, opts, inAndroidBuild)`, built with
`CONFIG_ANDROID_SNAPSHOTS`. -/
def updateHwConfigFromAVD (host : Host) (hwConfig : AndroidHwConfig) (avd : AvdInfo)
    (opts : AndroidOptions) (inAndroidBuild : Bool) : Except Exit HwUpdate :=
  let kernel := _update_hwconfig_path hwConfig.disk_kernel_path avd AVD_IMAGE_KERNEL
  if kernel.2 ≠ 0 then .error ⟨1, "kernel image path is invalid"⟩
  else
  let ramDisk := _update_hwconfig_path hwConfig.disk_ramDisk_path avd AVD_IMAGE_RAMDISK
  if ramDisk.2 ≠ 0 then .error ⟨1, "ramdisk image path is invalid"⟩
  else
  let initSystem :=
    _update_hwconfig_path hwConfig.disk_systemPartition_initPath avd AVD_IMAGE_INITSYSTEM
  if initSystem.2 ≠ 0 then .error ⟨1, "system path is invalid"⟩
  else
  let data1 := _update_hwconfig_path hwConfig.disk_dataPartition_path avd AVD_IMAGE_USERDATA
  let system := _update_hwconfig_path hwConfig.disk_systemPartition_path avd AVD_IMAGE_USERSYSTEM
  let data2 := _update_hwconfig_path data1.1 avd AVD_IMAGE_INITDATA
  let sdCard := _update_hwconfig_path hwConfig.disk_sdCard_path avd AVD_IMAGE_SDCARD
  let cache := _update_hwconfig_path hwConfig.disk_cachePartition_path avd AVD_IMAGE_CACHE
  let snapshots := _update_hwconfig_path hwConfig.disk_snapshots_path avd AVD_IMAGE_SNAPSHOTS
  match defaultPartitionSize host opts with
  | .error e => .error e
  | .ok defaultPartitionSize =>
    let systemBytes : Nat := avd.getImageFileSize AVD_IMAGE_INITSYSTEM % 2 ^ 64
    let defaultBytes0 : Nat := defaultPartitionSize
    let defaultBytes : Nat :=
      if defaultBytes0 = 0 ∨ opts.partition_size.isSome then defaultPartitionSize
      else defaultBytes0
    let systemSize := _adjustPartitionSize systemBytes defaultBytes inAndroidBuild
    let dataSize := dataPartitionSize host avd opts defaultPartitionSize inAndroidBuild
    .ok
      { hwConfig :=
          { hwConfig with
            disk_kernel_path := kernel.1
            disk_ramDisk_path := ramDisk.1
            disk_systemPartition_initPath := initSystem.1
            disk_dataPartition_path := data2.1
            disk_systemPartition_path := system.1
            disk_sdCard_path := sdCard.1
            disk_cachePartition_path := cache.1
            disk_snapshots_path := snapshots.1
            disk_systemPartition_size := systemSize.1
            disk_dataPartition_size := dataSize.1 }
        warnings :=
          (if systemSize.2 then ["system"] else []) ++ (if dataSize.2 then ["data"] else []) }

/-! ## Skin configuration trees -/

/-- Modelled from the spec: the type `AConfig` of android/config.h, which is
not among the sources. A node of the hierarchical key/value tree: its name, its
value and its child nodes in file order. -/
inductive AConfig where
  | node (name : String) (value : String) (children : List AConfig)

/-- The name of a node. -/
def AConfig.name : AConfig → String
  | .node n _ _ => n

/-- The value of a node. -/
def AConfig.value : AConfig → String
  | .node _ v _ => v

/-- The children of a node. -/
def AConfig.children : AConfig → List AConfig
  | .node _ _ cs => cs

/-- Modelled from the spec: `aconfig_node(name, value)` of android/config.c, a
fresh node without children. -/
def aconfig_node (name value : String) : AConfig :=
  .node name value []

/-- Modelled from the spec: `aconfig_find(root, name)` of android/config.c, the
first child of `root` called `name`, `none` for `NULL`. -/
def aconfig_find (root : AConfig) (name : String) : Option AConfig :=
  root.children.find? (fun c => c.name == name)

/-- Modelled from the spec: `aconfig_int(root, name, _default)` of
android/config.c, the value of the child `name` read as a C `int`, `_default`
without such a child. -/
def aconfig_int (longMax : Int) (root : AConfig) (name : String) (dflt : Int) : Int :=
  match aconfig_find root name with
  | none => dflt
  | some n => wrapInt32 (strtol longMax n.value.toList 0).1

/-- Modelled from the spec: `aconfig_str(root, name, _default)` of
android/config.c. -/
def aconfig_str (root : AConfig) (name : String) (dflt : Option String) : Option String :=
  match aconfig_find root name with
  | none => dflt
  | some n => some n.value

/-- A lexical unit of a layout description. -/
inductive ConfigToken where
  | text (s : String)
  | obrace
  | cbrace
  deriving DecidableEq, Repr

/-- The token a finished word (kept reversed while read) gives. -/
def flushWord (w : List Char) : List ConfigToken :=
  if w = [] then [] else [.text (String.mk w.reverse)]

/-- Modelled from the spec: the words of a layout description, separated by
white space, with the braces of nested blocks as tokens of their own. -/
def lexConfig : List Char → List Char → List ConfigToken
  | [], w => flushWord w
  | c :: cs, w =>
    if isspace c then flushWord w ++ lexConfig cs []
    else if c.toNat = 123 then flushWord w ++ .obrace :: lexConfig cs []
    else if c.toNat = 125 then flushWord w ++ .cbrace :: lexConfig cs []
    else lexConfig cs (c :: w)

/-- The reader of a layout description between two tokens: the blocks still
open (name, and the nodes read before it in the enclosing block, latest first),
the nodes of the current block (latest first) and a key waiting for its value. -/
structure ConfigReader where
  stack : List (String × List AConfig)
  nodes : List AConfig
  key : Option String

/-- The nodes of the current block, a key without value included. -/
def ConfigReader.current (st : ConfigReader) : List AConfig :=
  match st.key with
  | none => st.nodes
  | some k => .node k "" [] :: st.nodes

/-- Closing the innermost open block. -/
def ConfigReader.close (st : ConfigReader) : ConfigReader :=
  match st.stack with
  | [] => st
  | (k, outer) :: rest =>
    { stack := rest, nodes := .node k "" st.current.reverse :: outer, key := none }

/-- Reading one token. -/
def ConfigReader.step (st : ConfigReader) : ConfigToken → ConfigReader
  | .text w =>
    match st.key with
    | none => { st with key := some w }
    | some k => { st with nodes := .node k w [] :: st.nodes, key := none }
  | .obrace =>
    match st.key with
    | none => st
    | some k => { stack := (k, st.nodes) :: st.stack, nodes := [], key := none }
  | .cbrace => st.close

/-- Modelled from the spec: `aconfig_load(root, data)` of android/config.c, which
adds to `root` the nodes described by a text: `name value` pairs and
`name \x7b ... \x7d` blocks, nested to any depth. -/
def aconfig_load (root : AConfig) (data : String) : AConfig :=
  let read := (lexConfig data.toList []).foldl ConfigReader.step ⟨[], [], none⟩
  let closed := (List.range read.stack.length).foldl (fun st _ => st.close) read
  .node root.name root.value (root.children ++ closed.current.reverse)

/-! ## Operations on `int` -/

/-- The 32-bit two's-complement pattern of an `int`. -/
def toBits32 (x : Int) : Nat :=
  (x % 2 ^ 32).toNat

/-- The `int` a 32-bit pattern stands for. -/
def ofBits32 (n : Nat) : Int :=
  wrapInt32 (n : Int)

/-- `a | b` on `int`. -/
def intOr (a b : Int) : Int :=
  ofBits32 (toBits32 a ||| toBits32 b)

/-- `a & b` on `int`. -/
def intAnd (a b : Int) : Int :=
  ofBits32 (toBits32 a &&& toBits32 b)

/-- `~a` on `int`. -/
def intNot (a : Int) : Int :=
  ofBits32 (toBits32 a ^^^ (2 ^ 32 - 1))

/-- `a + b` on `int`, wrapping around on overflow. -/
def intAdd (a b : Int) : Int :=
  wrapInt32 (a + b)

/-! ## Skin files -/

/-- The table `skin_aliases`. -/
def skin_aliases : List (String × String) :=
  [("QVGA-L", "320x240"), ("QVGA-P", "240x320"), ("HVGA-L", "480x320"),
   ("HVGA-P", "320x480"), ("QVGA", "320x240"), ("HVGA", "320x480")]

/-- C `tolower` in the "C" locale. -/
def tolower (c : Char) : Char :=
  if 65 ≤ c.toNat ∧ c.toNat ≤ 90 then Char.ofNat (c.toNat + 32) else c

/-- Whether `strcasecmp(a, b)` is 0. -/
def strcasecmpEq (a b : String) : Bool :=
  a.toList.map tolower == b.toList.map tolower

/-- C `strchr(s, c)`: the text from the first `c` on, `none` for `NULL`. -/
def strchr : List Char → Char → Option (List Char)
  | [], _ => none
  | d :: r, c => if d = c then some (d :: r) else strchr r c

/-- What `snprintf` and `bufprint` leave in a buffer of `size` characters. -/
def truncateTo (size : Nat) (text : String) : String :=
  String.mk (text.toList.take (size - 1))

/-- The character `s[1]`, if the text goes that far. -/
def charAt1 (s : List Char) : Option Char :=
  match s with
  | _ :: c :: _ => some c
  | _ => none

/-- What `parse_skin_files` leaves behind when it returns: the hardware
configuration, `*skinConfig`, `*skinPath` and, when the skin has a `network`
node, the values assigned to `skin_network_speed` and `skin_network_delay`. -/
structure SkinFiles where
  hwConfig : AndroidHwConfig
  skinConfig : AConfig
  skinPath : String
  network : Option (Option String × Option String)

/-- The lookup of the `display` node in `parse_skin_files`. -/
def findDisplay (root : AConfig) : Option AConfig :=
  match aconfig_find root "display" with
  | some n => some n
  | none =>
    match aconfig_find root "parts" with
    | none => none
    | some _ =>
      match aconfig_find root "device" with
      | none => none
      | some _ => aconfig_find root "display"

/-- The block of `parse_skin_files` that copies the geometry of the display
node `n` into the hardware configuration. -/
def mergeDisplay (longMax : Int) (n : AConfig) (hwConfig : AndroidHwConfig) : AndroidHwConfig :=
  let width := aconfig_int longMax n "width" hwConfig.hw_lcd_width
  let height := aconfig_int longMax n "height" hwConfig.hw_lcd_height
  let depth := aconfig_int longMax n "bpp" hwConfig.hw_lcd_depth
  if width > 0 ∧ height > 0 then
    let adjust : Bool := intAnd (intOr width height) 3 != 0
    let width1 := if adjust then intAnd (intAdd width 3) (intNot 3) else width
    let height1 := if adjust then intAnd (intAdd height 3) (intNot 3) else height
    let depth1 := if depth ≠ 32 ∧ depth ≠ 16 then 16 else depth
    { hwConfig with hw_lcd_width := width1, hw_lcd_height := height1, hw_lcd_depth := depth1 }
  else hwConfig

/-- The part of `parse_skin_files` from the label `FOUND_SKIN` to `return`. -/
def foundSkin (longMax : Int) (root : AConfig) (path : String) (hwConfig : AndroidHwConfig) :
    SkinFiles :=
  let network :=
    match aconfig_find root "network" with
    | none => none
    | some n => some (aconfig_str n "speed" none, aconfig_str n "delay" none)
  let hwConfig1 :=
    match findDisplay root with
    | none => hwConfig
    | some n => mergeDisplay longMax n hwConfig
  { hwConfig := hwConfig1, skinConfig := root, skinPath := path, network := network }

/-- The part of `parse_skin_files` at the label `DEFAULT_SKIN`. -/
def defaultSkin (host : Host) (root : AConfig) (hwConfig : AndroidHwConfig) :
    Except Exit SkinFiles :=
  match host.layoutResource with
  | none => .error ⟨1, "Couldn't load builtin skin"⟩
  | some base => .ok (foundSkin host.LONG_MAX (aconfig_load root base) ":" hwConfig)

/-- The skin name after the alias lookup of `parse_skin_files`. -/
def aliasedSkinName (host : Host) (skinDirPath : Option String) (skinName : String) : String :=
  let checkAlias : Bool :=
    match skinDirPath with
    | none => true
    | some dir => !host.path_exists (truncateTo 1024 (dir ++ "/" ++ skinName))
  if checkAlias then
    match skin_aliases.find? (fun a => strcasecmpEq a.1 skinName) with
    | some a => a.2
    | none => skinName
  else skinName

/-- The text `parse_skin_files` builds for a skin name like "320x240" or
"320x240x16", `none` when the name is not of that kind. -/
def magicSkin (longMax : Int) (skinName : List Char) : Option String :=
  if (skinName.head?.map isdigit) = some true then
    match strchr skinName 'x' with
    | none => none
    | some x =>
      if (charAt1 x).map isdigit = some true then
        let width := atoi longMax skinName
        let height := atoi longMax x.tail
        let y := strchr x.tail 'x'
        let bpp : Int :=
          match y with
          | none => 16
          | some y1 => if (charAt1 y1).map isdigit = some true then atoi longMax y1.tail else 16
        some (truncateTo 1024
          ("display \x7b\n  width " ++ toString width ++ "\n  height " ++ toString height
            ++ "\n bpp " ++ toString bpp ++ "\x7d\n"))
      else none
  else none

/-- `parse_skin_files(skinDirPath, skinName, opts, hwConfig, &skinConfig, &skinPath)`;
the function does not read `opts`. -/
def parse_skin_files (host : Host) (skinDirPath : Option String) (skinName : Option String)
    (hwConfig : AndroidHwConfig) : Except Exit SkinFiles :=
  let root := aconfig_node "" ""
  match skinName with
  | none => defaultSkin host root hwConfig
  | some skinName0 =>
    let skinName1 := aliasedSkinName host skinDirPath skinName0
    match magicSkin host.LONG_MAX skinName1.toList with
    | some text => .ok (foundSkin host.LONG_MAX (aconfig_load root text) ":" hwConfig)
    | none =>
      match skinDirPath with
      | none => .error ⟨1, "unknown skin name"⟩
      | some dir =>
        match host.fileText (truncateTo 1024 (dir ++ "/" ++ skinName1 ++ "/layout")) with
        | none => defaultSkin host root hwConfig
        | some text =>
          .ok (foundSkin host.LONG_MAX (aconfig_load root text)
            (truncateTo 1024 (dir ++ "/" ++ skinName1 ++ "/")) hwConfig)

/-! ## Creation of the virtual device -/

/-- The parameters `android_avdParams` handed to the device registry: the flag
bits, the forced image paths and the skin. -/
structure AvdInfoParams where
  AVDINFO_NO_CACHE : Bool
  AVDINFO_WIPE_DATA : Bool
  AVDINFO_WIPE_CACHE : Bool
  AVDINFO_NO_SNAPSHOTS : Bool
  forcePaths : AvdImageType → Option String
  skinName : Option String
  skinRootPath : Option String

/-- What `createAVD` asks of its surroundings beyond the filesystem. -/
structure SdkWorld where
  /-- `MAX_PATH`, the size of the path buffers. -/
  MAX_PATH : Nat
  /-- C `getenv`. -/
  getenv : String → Option String
  /-- `path_parent(path, levels)` of android/utils/path.h. -/
  path_parent : String → Nat → Option String
  /-- The directory of the program, as `bufprint_app_dir` prints it. -/
  app_dir : String
  /-- The entries `dirScanner_next` returns for a directory, in its order;
  `none` when `dirScanner_new` fails. -/
  dirScanner : String → Option (List String)
  /-- `avdInfo_new(name, params)` of android/avd/info.h. -/
  avdInfo_new : String → AvdInfoParams → Option AvdInfo
  /-- `avdInfo_newForAndroidBuild(androidBuildRoot, androidOut, params)`. -/
  avdInfo_newForAndroidBuild : Option String → Option String → AvdInfoParams → Option AvdInfo

/-- The table `searchPaths` of `_getSdkImagePath`. -/
def searchPaths : List String :=
  ["", "/lib/images", "/../platforms/android-1.1/images"]

/-- `_getSdkImagePath(fileName)`: the directory holding `fileName`. A text fits
a buffer of `MAX_PATH` characters when it is shorter than that. -/
def _getSdkImagePath (host : Host) (world : SdkWorld) (fileName : String) : Option String :=
  let app := world.app_dir
  if app.length ≥ world.MAX_PATH then none
  else
    let known := searchPaths.find? (fun sp =>
      decide ((app ++ sp ++ "/" ++ fileName).length < world.MAX_PATH) &&
        host.path_exists (app ++ sp ++ "/" ++ fileName))
    match known with
    | some sp => some (app ++ sp)
    | none =>
      let platforms := app ++ "/../platforms"
      if platforms.length < world.MAX_PATH then
        match world.dirScanner platforms with
        | none => none
        | some subdirs =>
          let hit := subdirs.find? (fun subdir =>
            decide ((platforms ++ "/" ++ subdir ++ "/images/" ++ fileName).length
                < world.MAX_PATH) &&
              host.path_exists (platforms ++ "/" ++ subdir ++ "/images/" ++ fileName))
          match hit with
          | some subdir => some (platforms ++ "/" ++ subdir ++ "/images")
          | none => none
      else none

/-- `_getSdkImage(path, file)`. -/
def _getSdkImage (host : Host) (world : SdkWorld) (path file : String) : Option String :=
  let temp := path ++ "/" ++ file
  if temp.length ≥ world.MAX_PATH ∨ host.path_exists temp = false then none else some temp

/-- `_getSdkSystemImage(path, optionName, file)`. -/
def _getSdkSystemImage (host : Host) (world : SdkWorld) (path file : String) :
    Except Exit String :=
  match _getSdkImage host world path file with
  | none => .error ⟨2, "Your system directory is missing an image file"⟩
  | some image => .ok image

/-- The legacy support block of `createAVD`: `-system <dir>` and `-image <file>`
rewritten to `-sysdir <dir>` and `-system <file>`. -/
def legacyOptions (host : Host) (opts : AndroidOptions) : Except Exit AndroidOptions :=
  if opts.image ≠ none then
    if opts.system ≠ none ∧ opts.sysdir ≠ none then
      .error ⟨2, "You can't use -sysdir, -system and -image at the same time."⟩
    else .ok { opts with sysdir := opts.system, system := opts.image, image := none }
  else
    match opts.system with
    | none => .ok opts
    | some system =>
      if host.path_is_dir system then
        if opts.sysdir ≠ none then
          .error ⟨1, "Option -system should now be followed by a file path, not a directory one."⟩
        else .ok { opts with sysdir := opts.system, system := none }
      else .ok opts

/-- The probe of the Android build tree in `createAVD`: the values of
`android_build_root` and `android_build_out` after it (`none` for `NULL`). -/
def buildTreeProbe (host : Host) (world : SdkWorld) (opts : AndroidOptions) :
    Except Exit (Option String × Option String) :=
  if opts.avd = none then
    match world.getenv "ANDROID_PRODUCT_OUT" with
    | none => .ok (none, none)
    | some out =>
      if out = "" then .ok (none, none)
      else if host.path_exists out = false then
        .error ⟨2, "Can't access ANDROID_PRODUCT_OUT"⟩
      else
        match world.path_parent out 4 with
        | none => .error ⟨2, "Can't find the Android build root"⟩
        | some root =>
          if host.path_exists root = false then
            .error ⟨2, "Can't find the Android build root"⟩
          else .ok (some root, some out)
  else .ok (none, none)

/-- The auto-detection block of `createAVD`, entered without a device name and
without a build tree: the options after it. -/
def autodetectSdk (host : Host) (world : SdkWorld) (opts : AndroidOptions) :
    Except Exit AndroidOptions :=
  let sysdir0 : Option String :=
    match opts.sysdir with
    | some dir => some dir
    | none => _getSdkImagePath host world "system.img"
  match sysdir0 with
  | none =>
    .error ⟨2, "You did not specify a virtual device name, and the system directory could not be found."⟩
  | some sysdir =>
    let image (given : Option String) (file : String) : Except Exit String :=
      match given with
      | some f => .ok f
      | none => _getSdkSystemImage host world sysdir file
    match image opts.system "system.img" with
    | .error e => .error e
    | .ok system =>
      match image opts.kernel "kernel-qemu" with
      | .error e => .error e
      | .ok kernel =>
        match image opts.ramdisk "ramdisk.img" with
        | .error e => .error e
        | .ok ramdisk =>
          let datadir : String :=
            match opts.datadir with
            | some dir => dir
            | none => sysdir
          let probe (file : String) : Option String :=
            if host.path_exists (truncateTo world.MAX_PATH (datadir ++ file)) then
              some (truncateTo world.MAX_PATH (datadir ++ file))
            else none
          let data0 : Option String :=
            match opts.data with
            | some f => some f
            | none => probe "/userdata-qemu.img"
          match data0 with
          | none =>
            .error ⟨2, "You did not provide the name of an Android Virtual Device with the '-avd <name>' option."⟩
          | some data =>
            let sdcard : Option String :=
              match opts.sdcard with
              | some f => some f
              | none => probe "/sdcard.img"
            let snapstorage : Option String :=
              match opts.snapstorage with
              | some f => some f
              | none => probe "/snapshots.img"
            .ok { opts with
                  sysdir := some sysdir
                  system := some system
                  kernel := some kernel
                  ramdisk := some ramdisk
                  datadir := some datadir
                  data := some data
                  sdcard := sdcard
                  snapstorage := snapstorage }

/-- The calls of `_forceAvdImagePath` in `createAVD`, in their order. -/
def forceImagePaths (host : Host) (opts : AndroidOptions)
    (forcePaths : AvdImageType → Option String) :
    Except Exit (AvdImageType → Option String) :=
  match _forceAvdImagePath host forcePaths AVD_IMAGE_KERNEL opts.kernel true with
  | .error e => .error e
  | .ok f1 =>
    match _forceAvdImagePath host f1 AVD_IMAGE_INITSYSTEM opts.system true with
    | .error e => .error e
    | .ok f2 =>
      match _forceAvdImagePath host f2 AVD_IMAGE_RAMDISK opts.ramdisk true with
      | .error e => .error e
      | .ok f3 =>
        match _forceAvdImagePath host f3 AVD_IMAGE_USERDATA opts.data false with
        | .error e => .error e
        | .ok f4 =>
          match _forceAvdImagePath host f4 AVD_IMAGE_CACHE opts.cache false with
          | .error e => .error e
          | .ok f5 =>
            match _forceAvdImagePath host f5 AVD_IMAGE_SDCARD opts.sdcard false with
            | .error e => .error e
            | .ok f6 => _forceAvdImagePath host f6 AVD_IMAGE_SNAPSHOTS opts.snapstorage false

/-- What `createAVD` leaves behind when it returns: the device, the flag
`*inAndroidBuild`, the options and `android_avdParams` as it changed them. -/
structure CreatedAvd where
  avd : AvdInfo
  inAndroidBuild : Int
  opts : AndroidOptions
  params : AvdInfoParams

/-- The end of `createAVD`: the device is set up from its name or from the
build directories, and `*inAndroidBuild` is set. -/
def newDevice (world : SdkWorld) (opts : AndroidOptions) (params : AvdInfoParams)
    (android_build_root android_build_out : Option String) : Except Exit CreatedAvd :=
  match opts.avd with
  | some name =>
    match world.avdInfo_new name params with
    | none => .error ⟨1, "could not find virtual device"⟩
    | some ret =>
      .ok ⟨ret, if android_build_out ≠ none then 1 else 0, opts, params⟩
  | none =>
    let dirs : Option String × Option String :=
      if android_build_out = none then (opts.sysdir, opts.sysdir)
      else (android_build_root, android_build_out)
    match world.avdInfo_newForAndroidBuild dirs.1 dirs.2 params with
    | none => .error ⟨1, "could not start virtual device"⟩
    | some ret => .ok ⟨ret, if dirs.2 ≠ none then 1 else 0, opts, params⟩

/-- `createAVD(opts, &inAndroidBuild)`, built with `CONFIG_ANDROID_SNAPSHOTS`;
`params` is `android_avdParams` on entry. -/
def createAVD (host : Host) (world : SdkWorld) (opts : AndroidOptions)
    (params : AvdInfoParams) : Except Exit CreatedAvd :=
  let params1 : AvdInfoParams :=
    { params with
      AVDINFO_NO_CACHE := params.AVDINFO_NO_CACHE || opts.no_cache
      AVDINFO_WIPE_DATA := params.AVDINFO_WIPE_DATA || opts.wipe_data
      AVDINFO_WIPE_CACHE := params.AVDINFO_WIPE_CACHE || opts.wipe_data
      AVDINFO_NO_SNAPSHOTS := params.AVDINFO_NO_SNAPSHOTS || opts.no_snapstorage }
  match legacyOptions host opts with
  | .error e => .error e
  | .ok opts1 =>
    match buildTreeProbe host world opts1 with
    | .error e => .error e
    | .ok build =>
      let detected : Except Exit AndroidOptions :=
        if opts1.avd = none ∧ build.2 = none then autodetectSdk host world opts1 else .ok opts1
      match detected with
      | .error e => .error e
      | .ok opts2 =>
        match forceImagePaths host opts2 params1.forcePaths with
        | .error e => .error e
        | .ok forcePaths =>
          let opts3 : AndroidOptions :=
            if opts2.no_skin then { opts2 with skin := some "320x480", skindir := none } else opts2
          if opts3.skindir ≠ none ∧ opts3.skin = none then
            .error ⟨1, "the -skindir <path> option requires a -skin <name> option"⟩
          else
            newDevice world opts3
              { params1 with
                forcePaths := forcePaths
                skinName := opts3.skin
                skinRootPath := opts3.skindir }
              build.1 build.2

/-! ## The specification's wording and example inputs -/

/-- The rounding rule as the specification words it: the ceiling of
`bytes / 1MB`, clamped to the largest unsigned 32-bit value. -/
def specRoundUpToMB (bytes : Nat) : Nat :=
  min ((bytes + ONE_MB - 1) / ONE_MB) UINT_MAX

/-- The three LCD values of a hardware configuration. -/
def lcdOf (hwConfig : AndroidHwConfig) : Int × Int × Int :=
  (hwConfig.hw_lcd_width, hwConfig.hw_lcd_height, hwConfig.hw_lcd_depth)

/-- A platform with a 64-bit `long` (`LONG_MAX = 2^63 - 1`), an empty
filesystem and an empty built-in layout. -/
def lp64Host : Host :=
  { LONG_MAX := 2 ^ 63 - 1
    path_exists := fun _ => false
    path_is_dir := fun _ => false
    path_get_size := fun _ => 0
    fileText := fun _ => none
    layoutResource := some "" }

/-- The platform `lp64Host` with one skin, `skins/v2/layout`, written in the
second version of the skin format: its display lies under `parts`, `device`. -/
def skinV2Host : Host :=
  { lp64Host with
    path_exists := fun p => p == "skins/v2"
    fileText := fun p =>
      if p = "skins/v2/layout" then
        some "parts \x7b device \x7b display \x7b width 320 height 480 bpp 32 \x7d \x7d \x7d"
      else none }

/-- A device descriptor without any image. -/
def noImagesAvd : AvdInfo :=
  { getImageFile := fun _ => none
    getImageFileSize := fun _ => 0 }

/-- A hardware configuration naming its three required images, with an LCD of
321 x 481 at 24 bits per pixel. -/
def namedHwConfig : AndroidHwConfig :=
  { disk_kernel_path := some "kernel-qemu"
    disk_ramDisk_path := some "ramdisk.img"
    disk_systemPartition_initPath := some "system.img"
    disk_systemPartition_size := 0
    disk_dataPartition_size := 0
    hw_lcd_width := 321
    hw_lcd_height := 481
    hw_lcd_depth := 24 }

/-- The tree of a display of 2147483647 x 4 pixels. -/
def hugeDisplayRoot : AConfig :=
  aconfig_load (aconfig_node "" "") "display \x7b\n  width 2147483647\n  height 4\n bpp 16\x7d\n"

/-- The tree of a display of 320 x 480 pixels at 24 bits per pixel. -/
def depth24Root : AConfig :=
  aconfig_load (aconfig_node "" "") "display \x7b\n  width 320\n  height 480\n bpp 24\x7d\n"

/-- The display node of `depth24Root`. -/
def depth24Display : AConfig :=
  .node "display" "" [.node "width" "320" [], .node "height" "480" [], .node "bpp" "24" []]

/-- The tree of a display without width: 0 x 480 pixels at 32 bits per pixel. -/
def zeroWidthRoot : AConfig :=
  aconfig_load (aconfig_node "" "") "display \x7b\n  width 0\n  height 480\n bpp 32\x7d\n"

/-- The display node of `zeroWidthRoot`. -/
def zeroWidthDisplay : AConfig :=
  .node "display" "" [.node "width" "0" [], .node "height" "480" [], .node "bpp" "32" []]

/-- The source of the data partition size as the specification words it: the
user-data-runtime image when it has a path, exists and wipe-data is not set,
otherwise the initial user-data image. -/
def specDataSource (host : Host) (avd : AvdInfo) (opts : AndroidOptions) : Option String :=
  match avd.getImageFile AVD_IMAGE_USERDATA with
  | none => avd.getImageFile AVD_IMAGE_INITDATA
  | some p =>
    if host.path_exists p = true ∧ opts.wipe_data = false then some p
    else avd.getImageFile AVD_IMAGE_INITDATA

/-- The data partition size as the specification words it: the default when the
chosen source has no path or does not exist, otherwise the adjusted size of the
chosen image. -/
def specDataSize (host : Host) (avd : AvdInfo) (opts : AndroidOptions) (dflt : Nat)
    (inAndroidBuild : Bool) : Nat :=
  match specDataSource host avd opts with
  | none => dflt
  | some p =>
    if host.path_exists p = true then
      (_adjustPartitionSize (host.path_get_size p % 2 ^ 64) dflt inAndroidBuild).1
    else dflt

/-- A device descriptor with a user-data-runtime image and an initial
user-data image. -/
def dataAvd : AvdInfo :=
  { getImageFile := fun t =>
      match t with
      | AVD_IMAGE_USERDATA => some "userdata-qemu.img"
      | AVD_IMAGE_INITDATA => some "userdata.img"
      | _ => none
    getImageFileSize := fun _ => 0 }

/-- The platform `lp64Host` with the two images of `dataAvd`: a runtime image
of 100 MB and an initial image of 70 MB. -/
def dataHost : Host :=
  { lp64Host with
    path_exists := fun p => p == "userdata-qemu.img" || p == "userdata.img"
    path_get_size := fun p => if p = "userdata-qemu.img" then 100 * ONE_MB else 70 * ONE_MB }

/-- The platform `lp64Host` with the four images of an SDK next to the program
in `/sdk/tools`. -/
def sdkHost : Host :=
  { lp64Host with
    path_exists := fun p =>
      p == "/sdk/tools/system.img" || p == "/sdk/tools/kernel-qemu" ||
        p == "/sdk/tools/ramdisk.img" || p == "/sdk/tools/userdata-qemu.img" }

/-- Surroundings without `ANDROID_PRODUCT_OUT`, the program in `/sdk/tools`, a
registry that knows the device "test", and 1024 for `MAX_PATH`. -/
def sdkWorld : SdkWorld :=
  { MAX_PATH := 1024
    getenv := fun _ => none
    path_parent := fun _ _ => none
    app_dir := "/sdk/tools"
    dirScanner := fun _ => none
    avdInfo_new := fun name _ => if name = "test" then some noImagesAvd else none
    avdInfo_newForAndroidBuild := fun _ _ _ => some noImagesAvd }

/-- The parameters `android_avdParams` before `createAVD`: nothing set. -/
def noParams : AvdInfoParams :=
  { AVDINFO_NO_CACHE := false
    AVDINFO_WIPE_DATA := false
    AVDINFO_WIPE_CACHE := false
    AVDINFO_NO_SNAPSHOTS := false
    forcePaths := fun _ => none
    skinName := none
    skinRootPath := none }

/-- The platform `lp64Host` with a directory `skins/QVGA` holding a layout. -/
def qvgaDirHost : Host :=
  { lp64Host with
    path_exists := fun p => p == "skins/QVGA"
    fileText := fun p =>
      if p = "skins/QVGA/layout" then
        some "display \x7b width 100 height 200 bpp 32 \x7d"
      else none }

/-- The decimal value of a text of digits. -/
def decimalValue (digits : List Char) : Nat :=
  digits.foldl (fun acc c => acc * 10 + (c.toNat - 48)) 0

/-- Whether a text is a non-empty run of decimal digits. -/
def isDigits (text : List Char) : Bool :=
  !text.isEmpty && text.all isdigit

/-- The skin name `<width>x<height>`, or `<width>x<height>x<depth>` when a depth
is given. -/
def magicName (width height : List Char) (depth : Option (List Char)) : String :=
  String.mk (width ++ 'x' :: height ++
    (match depth with
     | none => []
     | some d => 'x' :: d))

/-- The depth of a skin name: the given one, 16 when it is omitted. -/
def magicDepth (depth : Option (List Char)) : Int :=
  match depth with
  | none => 16
  | some d => (decimalValue d : Int)

/-- The text `parse_skin_files` prints for a display of the given width, height
and depth. -/
def displayText (width height bpp : Int) : String :=
  "display \x7b\n  width " ++ toString width ++ "\n  height " ++ toString height
    ++ "\n bpp " ++ toString bpp ++ "\x7d\n"

/-- The display node the specification describes for a name `<width>x<height>`
or `<width>x<height>x<depth>`: its width, height and bpp, in decimal. -/
def specDisplayNode (width height bpp : Int) : AConfig :=
  .node "display" ""
    [.node "width" (toString width) [], .node "height" (toString height) [],
      .node "bpp" (toString bpp) []]

/-- The skin tree the specification describes for such a name: nothing but the
display node. -/
def specDisplayTree (width height bpp : Int) : AConfig :=
  .node "" "" [specDisplayNode width height bpp]

/-- The shape test of `parse_skin_files` for a name like "320x240": the first
character is a digit, there is an `x`, and a digit follows the first `x`. -/
def looksMagic (skinName : List Char) : Bool :=
  (skinName.head?.map isdigit == some true) &&
    (match strchr skinName 'x' with
     | none => false
     | some x => (charAt1 x).map isdigit == some true)

/-- The nested display node as the specification words it: the node `display`
under `device` under `parts` (`parts.device.display`). -/
def specNestedDisplay (root : AConfig) : Option AConfig :=
  ((aconfig_find root "parts").bind (fun p => aconfig_find p "device")).bind
    (fun d => aconfig_find d "display")

end AndroidEmulator

namespace AndroidEmulator

open AvdImageType

/-! ## Properties of the megabyte conversions and of the partition sizes -/

theorem convertMBToBytes_eq (m : Nat) (hm : m ≤ UINT_MAX) :
    convertMBToBytes m = m * ONE_MB := by
  simp only [convertMBToBytes, ONE_MB, UINT_MAX, Nat.shiftLeft_eq] at *
  omega

theorem convertBytesToMB_eq_spec (b : Nat) (hb : b ≤ 2 ^ 64 - ONE_MB) :
    convertBytesToMB b = specRoundUpToMB b := by
  simp only [convertBytesToMB, specRoundUpToMB, ONE_MB, UINT_MAX, Nat.shiftRight_eq_div_pow] at *
  split_ifs <;> omega

theorem convertBytesToMB_le (b : Nat) : convertBytesToMB b ≤ UINT_MAX := by
  simp only [convertBytesToMB, UINT_MAX]
  split_ifs <;> omega

/-- C1, as stated, fails: with a default that is not a whole number of megabytes
(`s = d = 1`) the code returns the default, not the rounded image size; with a
default above the largest 32-bit megabyte count (`s = 2^52 + 1`, `d = 2^52`) the
clamped image size is returned although it is below the default; and for
`s = 2^64 - 1` the rounding wraps around to 0. -/
theorem adjustPartitionSize_ne_max :
    (_adjustPartitionSize 1 1 false).1 ≠ max 1 (convertMBToBytes (convertBytesToMB 1)) ∧
    (_adjustPartitionSize (2 ^ 52 + 1) (2 ^ 52) false).1
      ≠ max (2 ^ 52) (convertMBToBytes (convertBytesToMB (2 ^ 52 + 1))) ∧
    (_adjustPartitionSize (2 ^ 64 - 1) ONE_MB false).1
      ≠ max ONE_MB (convertMBToBytes (convertBytesToMB (2 ^ 64 - 1))) := by
  decide

/-- C1, amended: for every image size `s` of at most `2^64 - 1MB` bytes and every
default `d` that is a whole number of megabytes, at most `2^32 - 1` of them,
`_adjustPartitionSize(s, d)` returns exactly
`max(d, convertMBToBytes(convertBytesToMB(s)))`, and there
`convertMBToBytes(convertBytesToMB(s))` is the ceiling of `s / 1MB` (clamped to
`2^32 - 1`) times 1MB; with `d` = 66 MB and `s` = 80 MB the result is 80 MB. -/
theorem adjustPartitionSize_eq_max (s d : Nat) (inAndroidBuild : Bool)
    (hs : s ≤ 2 ^ 64 - ONE_MB) (hd : ONE_MB ∣ d) (hdmax : d ≤ UINT_MAX * ONE_MB) :
    (_adjustPartitionSize s d inAndroidBuild).1
        = max d (convertMBToBytes (convertBytesToMB s)) ∧
      convertMBToBytes (convertBytesToMB s) = specRoundUpToMB s * ONE_MB ∧
      (_adjustPartitionSize (80 * ONE_MB) (66 * ONE_MB) inAndroidBuild).1 = 80 * ONE_MB := by
  have hconv : convertMBToBytes (convertBytesToMB s) = specRoundUpToMB s * ONE_MB := by
    rw [convertMBToBytes_eq _ (convertBytesToMB_le s), convertBytesToMB_eq_spec s hs]
  refine ⟨?_, hconv, ?_⟩
  · rw [hconv]
    obtain ⟨k, rfl⟩ := hd
    simp only [_adjustPartitionSize, specRoundUpToMB, ONE_MB, UINT_MAX] at *
    split_ifs <;> simp only [] <;> omega
  · cases inAndroidBuild <;> decide

/-- Witness of C1 (amended) at the scenario of the specification: an 80 MB
image with the 66 MB default. -/
theorem adjustPartitionSize_eq_max_witness :
    80 * ONE_MB ≤ 2 ^ 64 - ONE_MB ∧ ONE_MB ∣ 66 * ONE_MB ∧ 66 * ONE_MB ≤ UINT_MAX * ONE_MB ∧
      (_adjustPartitionSize (80 * ONE_MB) (66 * ONE_MB) true).1
        = max (66 * ONE_MB) (convertMBToBytes (convertBytesToMB (80 * ONE_MB))) :=
  ⟨by decide, by decide, by decide,
    (adjustPartitionSize_eq_max (80 * ONE_MB) (66 * ONE_MB) true
      (by decide) (by decide) (by decide)).1⟩

/-- C2, as stated, fails: an image of `2^63` bytes is sized by the clamped
32-bit megabyte count, so the returned size is below the image size. -/
theorem adjustPartitionSize_lt_image :
    (_adjustPartitionSize (2 ^ 63) 0 false).1 < 2 ^ 63 := by
  decide

/-- C2, amended: whenever the image size `s` is not above the default `d` or not
above `2^32 - 1` megabytes (the largest size a 32-bit megabyte count holds), the
size returned by `_adjustPartitionSize(s, d)` is never less than `d` and never
less than `s`. -/
theorem adjustPartitionSize_ge (s d : Nat) (inAndroidBuild : Bool)
    (h : s ≤ d ∨ s ≤ UINT_MAX * ONE_MB) :
    d ≤ (_adjustPartitionSize s d inAndroidBuild).1 ∧
      s ≤ (_adjustPartitionSize s d inAndroidBuild).1 := by
  by_cases hsd : s ≤ d
  · simp only [_adjustPartitionSize, if_pos hsd]
    exact ⟨le_refl d, hsd⟩
  · have hs : s ≤ UINT_MAX * ONE_MB := h.resolve_left hsd
    have hs64 : s ≤ 2 ^ 64 - ONE_MB := by
      simp only [ONE_MB, UINT_MAX] at *
      omega
    simp only [_adjustPartitionSize, if_neg hsd]
    rw [convertMBToBytes_eq _ (convertBytesToMB_le s), convertBytesToMB_eq_spec s hs64]
    simp only [specRoundUpToMB, ONE_MB, UINT_MAX] at *
    omega

/-- Witness of C2 (amended): an 80 MB image with the 66 MB default. -/
theorem adjustPartitionSize_ge_witness :
    (80 * ONE_MB ≤ 66 * ONE_MB ∨ 80 * ONE_MB ≤ UINT_MAX * ONE_MB) ∧
      66 * ONE_MB ≤ (_adjustPartitionSize (80 * ONE_MB) (66 * ONE_MB) false).1 ∧
      80 * ONE_MB ≤ (_adjustPartitionSize (80 * ONE_MB) (66 * ONE_MB) false).1 :=
  ⟨Or.inr (by decide),
    adjustPartitionSize_ge (80 * ONE_MB) (66 * ONE_MB) false (Or.inr (by decide))⟩

/-- C3 at the failing input: for `b = 2^64 - 1` the sum `b + ONE_MB - 1` wraps
around modulo `2^64` and `convertBytesToMB` returns 0, while the clamped ceiling
of `b / 2^20` is `2^32 - 1`. -/
theorem convertBytesToMB_wraps :
    convertBytesToMB (2 ^ 64 - 1) = 0 ∧ specRoundUpToMB (2 ^ 64 - 1) = 2 ^ 32 - 1 := by
  decide

/-! ## Properties of `updateHwConfigFromAVD` -/

theorem defaultPartitionSize_none (host : Host) (opts : AndroidOptions)
    (h : opts.partition_size = none) :
    defaultPartitionSize host opts = .ok (66 * ONE_MB) := by
  simp only [defaultPartitionSize, h]
  rfl

theorem defaultPartitionSize_valid (host : Host) (opts : AndroidOptions) (text : String)
    (n : Int) (hopt : opts.partition_size = some text)
    (hparse : strtol host.LONG_MAX text.toList 0 = (n, []))
    (hmin : 10 ≤ n) (hmax : n ≤ host.LONG_MAX / (ONE_MB : Int)) :
    defaultPartitionSize host opts = .ok ((n * (ONE_MB : Int)) % 2 ^ 32).toNat := by
  simp only [defaultPartitionSize, hopt, hparse]
  have h1 : ¬ (n < 0 ∨ ([] : List Char) ≠ []) := by
    intro h
    rcases h with h | h
    · omega
    · exact h rfl
  have h2 : ¬ (n < 10 ∨ n > host.LONG_MAX / (ONE_MB : Int)) := by
    intro h
    rcases h with h | h <;> omega
  rw [if_neg h1, if_neg h2]

/-- On a platform whose `long` has 32 bits every validated override is below
4096 MB, and the `unsigned` variable holds `n * 2^20` exactly. -/
theorem defaultPartitionSize_exact (host : Host) (opts : AndroidOptions) (text : String)
    (n : Int) (hopt : opts.partition_size = some text)
    (hparse : strtol host.LONG_MAX text.toList 0 = (n, []))
    (hmin : 10 ≤ n) (hmax : n ≤ host.LONG_MAX / (ONE_MB : Int))
    (hlong : host.LONG_MAX = 2 ^ 31 - 1) :
    defaultPartitionSize host opts = .ok (n * (ONE_MB : Int)).toNat := by
  rw [defaultPartitionSize_valid host opts text n hopt hparse hmin hmax]
  have hn : n ≤ 2047 := by
    rw [hlong] at hmax
    simp only [ONE_MB] at hmax
    omega
  have e : (n * (ONE_MB : Int)) % 2 ^ 32 = n * (ONE_MB : Int) := by
    simp only [ONE_MB]
    omega
  rw [e]

/-- C4 at the failing input: where `long` has 64 bits the override
`-partition-size 4096` passes the validation (`4096 <= LONG_MAX / ONE_MB`), and
the `unsigned` variable `defaultPartitionSize` receives `4096 * 2^20` reduced
modulo `2^32`, which is 0; without images both partitions are then sized 0
bytes instead of `4096 * 2^20`. -/
theorem defaultPartitionSize_truncated :
    defaultPartitionSize lp64Host { partition_size := some "4096" } = .ok 0 ∧
    ((updateHwConfigFromAVD lp64Host namedHwConfig noImagesAvd
        { partition_size := some "4096" } false).toOption.map
      (fun u => (u.hwConfig.disk_systemPartition_size, u.hwConfig.disk_dataPartition_size)))
      = some (0, 0) ∧
    (4096 : Int) ≤ lp64Host.LONG_MAX / (ONE_MB : Int) ∧
    defaultPartitionSize lp64Host {} = .ok (66 * 2 ^ 20) := by
  refine ⟨?_, ?_, ?_, ?_⟩ <;> decide

theorem update_hwconfig_path_status (path : Option String) (avd : AvdInfo) (t : AvdImageType) :
    ((_update_hwconfig_path path avd t).2 = 0 ∧
        _is_valid_hw_disk_path (_update_hwconfig_path path avd t).1 = true) ∨
      ((_update_hwconfig_path path avd t).2 = -1 ∧
        _is_valid_hw_disk_path (_update_hwconfig_path path avd t).1 = false) := by
  unfold _update_hwconfig_path
  cases h : _is_valid_hw_disk_path path <;>
    cases h1 : _is_valid_hw_disk_path (avd.getImageFile t) <;> simp [h, h1]

theorem update_hwconfig_path_ok (path : Option String) (avd : AvdInfo) (t : AvdImageType)
    (h : ¬ (_update_hwconfig_path path avd t).2 ≠ 0) :
    _is_valid_hw_disk_path (_update_hwconfig_path path avd t).1 = true := by
  rcases update_hwconfig_path_status path avd t with h1 | h1
  · exact h1.2
  · exact absurd (by rw [h1.1]; decide) h

/-- C5, as stated, fails: with the three required paths already named in the
hardware configuration, `updateHwConfigFromAVD` returns and keeps the kernel
path although no such file exists. -/
theorem required_path_need_not_exist :
    (updateHwConfigFromAVD lp64Host namedHwConfig noImagesAvd {} false).toOption.map
        (fun u => u.hwConfig.disk_kernel_path) = some (some "kernel-qemu") ∧
      lp64Host.path_exists "kernel-qemu" = false := by
  decide

/-- C5, amended: for every incoming hardware configuration and device descriptor,
`updateHwConfigFromAVD` either terminates with a fatal error or leaves the
kernel, ramdisk and system-init paths valid (non-null, non-empty and not
"<init>"); it does not look at the filesystem for them. The existence check is
the one of `_forceAvdImagePath`: for a path forced on a required slot it either
terminates with a fatal error or records the path, which then exists. -/
theorem required_paths_valid :
    (∀ (host : Host) (hwConfig : AndroidHwConfig) (avd : AvdInfo) (opts : AndroidOptions)
        (inAndroidBuild : Bool),
      (∃ e, updateHwConfigFromAVD host hwConfig avd opts inAndroidBuild = .error e) ∨
      (∃ u, updateHwConfigFromAVD host hwConfig avd opts inAndroidBuild = .ok u ∧
        _is_valid_hw_disk_path u.hwConfig.disk_kernel_path = true ∧
        _is_valid_hw_disk_path u.hwConfig.disk_ramDisk_path = true ∧
        _is_valid_hw_disk_path u.hwConfig.disk_systemPartition_initPath = true)) ∧
    (∀ (host : Host) (forcePaths : AvdImageType → Option String) (imageType : AvdImageType)
        (p : String),
      (∃ e, _forceAvdImagePath host forcePaths imageType (some p) true = .error e) ∨
      (∃ fp, _forceAvdImagePath host forcePaths imageType (some p) true = .ok fp ∧
        fp imageType = some p ∧ host.path_exists p = true)) := by
  constructor
  · intro host hwConfig avd opts inAndroidBuild
    simp only [updateHwConfigFromAVD]
    split_ifs with h1 h2 h3
    · exact Or.inl ⟨_, rfl⟩
    · exact Or.inl ⟨_, rfl⟩
    · exact Or.inl ⟨_, rfl⟩
    · cases hd : defaultPartitionSize host opts with
      | error e => exact Or.inl ⟨_, rfl⟩
      | ok d =>
        exact Or.inr ⟨_, rfl, update_hwconfig_path_ok _ avd _ h1,
          update_hwconfig_path_ok _ avd _ h2, update_hwconfig_path_ok _ avd _ h3⟩
  · intro host forcePaths imageType p
    simp only [_forceAvdImagePath]
    cases h : host.path_exists p
    · exact Or.inl ⟨_, rfl⟩
    · exact Or.inr ⟨_, rfl, by simp, rfl⟩

/-- C6: a path is valid exactly when it is non-null, non-empty and not the
sentinel "<init>"; `_update_hwconfig_path` leaves in the slot the explicit value
when that is valid (so a valid explicit value is never overwritten) and the
descriptor's image path otherwise; it returns -1 exactly when the path it
leaves is not valid, and 0 otherwise. -/
theorem update_hwconfig_path_contract (path : Option String) (avd : AvdInfo)
    (t : AvdImageType) :
    (∀ p : Option String, _is_valid_hw_disk_path p = true ↔
        (p ≠ none ∧ p ≠ some "" ∧ p ≠ some "<init>")) ∧
      (_update_hwconfig_path path avd t).1
        = (if _is_valid_hw_disk_path path = true then path else avd.getImageFile t) ∧
      ((_update_hwconfig_path path avd t).2 = -1 ↔
        _is_valid_hw_disk_path (_update_hwconfig_path path avd t).1 = false) ∧
      ((_update_hwconfig_path path avd t).2 = 0 ↔
        _is_valid_hw_disk_path (_update_hwconfig_path path avd t).1 = true) := by
  refine ⟨?_, ?_⟩
  · intro p
    cases p with
    | none => simp [_is_valid_hw_disk_path]
    | some q =>
      simp only [_is_valid_hw_disk_path]
      split_ifs with h
      · rcases h with h | h <;> simp [h]
      · simp only [not_or] at h
        simp [h.1, h.2]
  · unfold _update_hwconfig_path
    cases h : _is_valid_hw_disk_path path <;>
      cases h1 : _is_valid_hw_disk_path (avd.getImageFile t) <;> simp [h, h1]

/-! ## Properties of the `int` operations -/

theorem and_mask_eq (n : Nat) (hn : n < 2 ^ 32) : n &&& (2 ^ 32 - 4) = n / 4 * 4 := by
  have h1 : (2 ^ 32 - 4 : Nat) = (2 ^ 30 - 1) <<< 2 := by decide
  have h2 : n / 4 * 4 = (n >>> 2) <<< 2 := by
    simp [Nat.shiftLeft_eq, Nat.shiftRight_eq_div_pow]
  rw [h1, h2]
  apply Nat.eq_of_testBit_eq
  intro i
  simp only [Nat.testBit_and, Nat.testBit_shiftLeft, Nat.testBit_shiftRight,
    Nat.testBit_two_pow_sub_one]
  by_cases hi : 2 ≤ i
  · have e : 2 + (i - 2) = i := by omega
    rw [e]
    by_cases h32 : i < 32
    · have : i - 2 < 30 := by omega
      simp [hi, this]
    · have hf : n.testBit i = false := by
        apply Nat.testBit_eq_false_of_lt
        calc n < 2 ^ 32 := hn
          _ ≤ 2 ^ i := Nat.pow_le_pow_right (by decide) (by omega)
      simp [hf]
  · simp [hi]

theorem or_mod4_eq (a b : Nat) : (a ||| b) % 4 = (a % 4) ||| (b % 4) := by
  have e : (4 : Nat) = 2 ^ 2 := rfl
  rw [e]
  apply Nat.eq_of_testBit_eq
  intro i
  simp only [Nat.testBit_mod_two_pow, Nat.testBit_or]
  cases decide (i < 2) <;> simp

theorem or_mod4 (a b : Nat) : (a ||| b) % 4 = 0 ↔ a % 4 = 0 ∧ b % 4 = 0 := by
  rw [or_mod4_eq]
  have ha : a % 4 < 4 := Nat.mod_lt _ (by decide)
  have hb : b % 4 < 4 := Nat.mod_lt _ (by decide)
  generalize a % 4 = x at *
  generalize b % 4 = y at *
  interval_cases x <;> interval_cases y <;> decide

theorem toBits32_lt (x : Int) : toBits32 x < 2 ^ 32 := by
  unfold toBits32
  omega

theorem toBits32_mod4 (x : Int) : ((toBits32 x % 4 : Nat) : Int) = x % 4 := by
  unfold toBits32
  omega

theorem ofBits32_mod4 (n : Nat) : ofBits32 n % 4 = (n : Int) % 4 := by
  unfold ofBits32 wrapInt32
  omega

theorem intAnd_three (x : Int) : intAnd x 3 = x % 4 := by
  have h3 : toBits32 3 = 2 ^ 2 - 1 := by decide
  unfold intAnd
  rw [h3, Nat.and_pow_two_sub_one_eq_mod]
  have := toBits32_mod4 x
  have hlt : toBits32 x % 2 ^ 2 < 4 := Nat.mod_lt _ (by decide)
  unfold ofBits32 wrapInt32
  omega

theorem intAnd_intOr_three (w h : Int) :
    intAnd (intOr w h) 3 = 0 ↔ w % 4 = 0 ∧ h % 4 = 0 := by
  rw [intAnd_three]
  unfold intOr
  rw [ofBits32_mod4]
  have hor := or_mod4 (toBits32 w) (toBits32 h)
  have hw := toBits32_mod4 w
  have hh := toBits32_mod4 h
  omega

theorem intAnd_intNot_three (y : Int) :
    intAnd y (intNot 3) = ofBits32 (toBits32 y / 4 * 4) := by
  have h3 : toBits32 (intNot 3) = 2 ^ 32 - 4 := by decide
  unfold intAnd
  rw [h3, and_mask_eq _ (toBits32_lt y)]

theorem roundUp_mod4 (y : Int) : intAnd y (intNot 3) % 4 = 0 := by
  rw [intAnd_intNot_three, ofBits32_mod4]
  omega

theorem roundUp_value (w : Int) (h0 : 0 < w) (h1 : w ≤ 2 ^ 31 - 4) :
    intAnd (intAdd w 3) (intNot 3) = (w + 3) / 4 * 4 := by
  rw [intAnd_intNot_three]
  unfold intAdd ofBits32 toBits32 wrapInt32
  omega

theorem round_mod4 (w h : Int) :
    (if (intAnd (intOr w h) 3 != 0) = true then intAnd (intAdd w 3) (intNot 3) else w) % 4 = 0 ∧
    (if (intAnd (intOr w h) 3 != 0) = true then intAnd (intAdd h 3) (intNot 3) else h) % 4 = 0 := by
  by_cases hadj : intAnd (intOr w h) 3 = 0
  · have hb : ¬ (intAnd (intOr w h) 3 != 0) = true := by
      rw [hadj]
      decide
    rw [if_neg hb, if_neg hb]
    exact (intAnd_intOr_three w h).mp hadj
  · have hb : (intAnd (intOr w h) 3 != 0) = true := bne_iff_ne.mpr hadj
    rw [if_pos hb, if_pos hb]
    exact ⟨roundUp_mod4 _, roundUp_mod4 _⟩

theorem round_ge (w h : Int) (hw0 : 0 < w) (hw1 : w ≤ 2 ^ 31 - 4) (hh0 : 0 < h)
    (hh1 : h ≤ 2 ^ 31 - 4) :
    w ≤ (if (intAnd (intOr w h) 3 != 0) = true then intAnd (intAdd w 3) (intNot 3) else w) ∧
    h ≤ (if (intAnd (intOr w h) 3 != 0) = true then intAnd (intAdd h 3) (intNot 3) else h) := by
  rw [roundUp_value w hw0 hw1, roundUp_value h hh0 hh1]
  constructor <;> split_ifs <;> omega

theorem depth_clamp (d : Int) :
    (if d ≠ 32 ∧ d ≠ 16 then (16 : Int) else d) = (if d = 16 ∨ d = 32 then d else 16) := by
  split_ifs with h1 h2 h2
  · omega
  · rfl
  · rfl
  · omega

theorem mergeDisplay_pos (longMax : Int) (n : AConfig) (hw : AndroidHwConfig)
    (hpos : aconfig_int longMax n "width" hw.hw_lcd_width > 0 ∧
      aconfig_int longMax n "height" hw.hw_lcd_height > 0) :
    lcdOf (mergeDisplay longMax n hw) =
      ((if (intAnd (intOr (aconfig_int longMax n "width" hw.hw_lcd_width)
              (aconfig_int longMax n "height" hw.hw_lcd_height)) 3 != 0) = true
          then intAnd (intAdd (aconfig_int longMax n "width" hw.hw_lcd_width) 3) (intNot 3)
          else aconfig_int longMax n "width" hw.hw_lcd_width),
       (if (intAnd (intOr (aconfig_int longMax n "width" hw.hw_lcd_width)
              (aconfig_int longMax n "height" hw.hw_lcd_height)) 3 != 0) = true
          then intAnd (intAdd (aconfig_int longMax n "height" hw.hw_lcd_height) 3) (intNot 3)
          else aconfig_int longMax n "height" hw.hw_lcd_height),
       (if aconfig_int longMax n "bpp" hw.hw_lcd_depth ≠ 32 ∧
            aconfig_int longMax n "bpp" hw.hw_lcd_depth ≠ 16 then 16
          else aconfig_int longMax n "bpp" hw.hw_lcd_depth)) := by
  simp only [mergeDisplay, if_pos hpos, lcdOf]

theorem mergeDisplay_not_pos (longMax : Int) (n : AConfig) (hw : AndroidHwConfig)
    (hpos : ¬ (aconfig_int longMax n "width" hw.hw_lcd_width > 0 ∧
      aconfig_int longMax n "height" hw.hw_lcd_height > 0)) :
    mergeDisplay longMax n hw = hw := by
  unfold mergeDisplay
  rw [if_neg hpos]

theorem lcdOf_eq (hw : AndroidHwConfig) (a b c : Int) (h : lcdOf hw = (a, b, c)) :
    hw.hw_lcd_width = a ∧ hw.hw_lcd_height = b ∧ hw.hw_lcd_depth = c := by
  simp only [lcdOf, Prod.mk.injEq] at h
  exact h

theorem mergeDisplay_lcd (longMax : Int) (n : AConfig) (hw : AndroidHwConfig) :
    lcdOf (mergeDisplay longMax n hw) = lcdOf hw ∨
      ((mergeDisplay longMax n hw).hw_lcd_width % 4 = 0 ∧
        (mergeDisplay longMax n hw).hw_lcd_height % 4 = 0 ∧
        ((mergeDisplay longMax n hw).hw_lcd_depth = 16 ∨
          (mergeDisplay longMax n hw).hw_lcd_depth = 32)) := by
  by_cases hpos : aconfig_int longMax n "width" hw.hw_lcd_width > 0 ∧
      aconfig_int longMax n "height" hw.hw_lcd_height > 0
  · right
    obtain ⟨e1, e2, e3⟩ := lcdOf_eq _ _ _ _ (mergeDisplay_pos longMax n hw hpos)
    rw [e1, e2, e3, depth_clamp]
    refine ⟨(round_mod4 _ _).1, (round_mod4 _ _).2, ?_⟩
    split_ifs with hd
    · exact hd
    · exact Or.inl rfl
  · rw [mergeDisplay_not_pos longMax n hw hpos]
    exact Or.inl rfl

theorem foundSkin_lcd (longMax : Int) (root : AConfig) (path : String) (hw : AndroidHwConfig) :
    lcdOf (foundSkin longMax root path hw).hwConfig = lcdOf hw ∨
      ((foundSkin longMax root path hw).hwConfig.hw_lcd_width % 4 = 0 ∧
        (foundSkin longMax root path hw).hwConfig.hw_lcd_height % 4 = 0 ∧
        ((foundSkin longMax root path hw).hwConfig.hw_lcd_depth = 16 ∨
          (foundSkin longMax root path hw).hwConfig.hw_lcd_depth = 32)) := by
  unfold foundSkin
  simp only []
  cases findDisplay root with
  | none => exact Or.inl rfl
  | some n => exact mergeDisplay_lcd longMax n hw

/-! ## Properties of `parse_skin_files` -/

/-- Without overflow of `width + 3` and `height + 3` the merged width and height
are multiples of 4 and not below the parsed values. -/
theorem mergeDisplay_round (longMax : Int) (n : AConfig) (hw : AndroidHwConfig)
    (hw0 : 0 < aconfig_int longMax n "width" hw.hw_lcd_width)
    (hw1 : aconfig_int longMax n "width" hw.hw_lcd_width ≤ 2 ^ 31 - 4)
    (hh0 : 0 < aconfig_int longMax n "height" hw.hw_lcd_height)
    (hh1 : aconfig_int longMax n "height" hw.hw_lcd_height ≤ 2 ^ 31 - 4) :
    (mergeDisplay longMax n hw).hw_lcd_width % 4 = 0 ∧
      (mergeDisplay longMax n hw).hw_lcd_height % 4 = 0 ∧
      aconfig_int longMax n "width" hw.hw_lcd_width ≤ (mergeDisplay longMax n hw).hw_lcd_width ∧
      aconfig_int longMax n "height" hw.hw_lcd_height
        ≤ (mergeDisplay longMax n hw).hw_lcd_height := by
  obtain ⟨e1, e2, _⟩ := lcdOf_eq _ _ _ _ (mergeDisplay_pos longMax n hw ⟨hw0, hh0⟩)
  rw [e1, e2]
  exact ⟨(round_mod4 _ _).1, (round_mod4 _ _).2, (round_ge _ _ hw0 hw1 hh0 hh1).1,
    (round_ge _ _ hw0 hw1 hh0 hh1).2⟩

/-- Every return of `parse_skin_files` goes through the label `FOUND_SKIN`. -/
theorem parse_skin_files_ok (host : Host) (skinDirPath skinName : Option String)
    (hw : AndroidHwConfig) (r : SkinFiles)
    (h : parse_skin_files host skinDirPath skinName hw = .ok r) :
    ∃ root path, r = foundSkin host.LONG_MAX root path hw := by
  have hdef : ∀ root, defaultSkin host root hw = .ok r →
      ∃ root path, r = foundSkin host.LONG_MAX root path hw := by
    intro root hr
    unfold defaultSkin at hr
    cases hl : host.layoutResource with
    | none => simp [hl] at hr
    | some base =>
      simp only [hl, Except.ok.injEq] at hr
      exact ⟨_, _, hr.symm⟩
  unfold parse_skin_files at h
  cases skinName with
  | none => exact hdef _ h
  | some name0 =>
    simp only [] at h
    cases hm : magicSkin host.LONG_MAX (aliasedSkinName host skinDirPath name0).toList with
    | some text =>
      simp only [hm, Except.ok.injEq] at h
      exact ⟨_, _, h.symm⟩
    | none =>
      simp only [hm] at h
      cases skinDirPath with
      | none => simp at h
      | some dir =>
        simp only [] at h
        cases hf : host.fileText
            (truncateTo 1024 (dir ++ "/" ++ aliasedSkinName host (some dir) name0 ++ "/layout")) with
        | none =>
          simp only [hf] at h
          exact hdef _ h
        | some text =>
          simp only [hf, Except.ok.injEq] at h
          exact ⟨_, _, h.symm⟩

set_option maxRecDepth 100000 in
/-- The scenario of skin name "233x301": the merged LCD is 236 x 304 at depth 16. -/
theorem parse_skin_files_233x301 :
    (parse_skin_files lp64Host none (some "233x301") namedHwConfig).toOption.map
        (fun r => lcdOf r.hwConfig) = some (236, 304, 16) := by
  decide

set_option maxRecDepth 100000 in
/-- C7 at the failing input: for a display of 2147483647 x 4 pixels (skin name
"2147483647x4") the sum `width + 3` leaves the range of `int`; with
two's-complement wrap-around the merged width is -2147483648, a multiple of 4
but below the parsed width. -/
theorem mergeDisplay_width_overflow :
    (findDisplay hugeDisplayRoot).map
        (fun n => (aconfig_int lp64Host.LONG_MAX n "width" 0,
          aconfig_int lp64Host.LONG_MAX n "height" 0,
          lcdOf (mergeDisplay lp64Host.LONG_MAX n namedHwConfig)))
      = some (2147483647, 4, (-2147483648, 4, 16)) ∧
    (parse_skin_files lp64Host none (some "2147483647x4") namedHwConfig).toOption.map
        (fun r => lcdOf r.hwConfig) = some (-2147483648, 4, 16) := by
  decide

/-- C8: for every display node `n` found by `parse_skin_files` whose parsed width
and height are positive, the merged LCD depth is the parsed depth (bpp) when
that is 16 or 32, and 16 otherwise. -/
theorem foundSkin_depth (longMax : Int) (root n : AConfig) (path : String)
    (hw : AndroidHwConfig) (hn : findDisplay root = some n)
    (hw0 : 0 < aconfig_int longMax n "width" hw.hw_lcd_width)
    (hh0 : 0 < aconfig_int longMax n "height" hw.hw_lcd_height) :
    (foundSkin longMax root path hw).hwConfig.hw_lcd_depth =
      (if aconfig_int longMax n "bpp" hw.hw_lcd_depth = 16 ∨
          aconfig_int longMax n "bpp" hw.hw_lcd_depth = 32
        then aconfig_int longMax n "bpp" hw.hw_lcd_depth else 16) := by
  have e : (foundSkin longMax root path hw).hwConfig = mergeDisplay longMax n hw := by
    simp only [foundSkin, hn]
  obtain ⟨_, _, e3⟩ := lcdOf_eq _ _ _ _ (mergeDisplay_pos longMax n hw ⟨hw0, hh0⟩)
  rw [e, e3, depth_clamp]

set_option maxRecDepth 100000 in
/-- Witness of C8: a display of 320 x 480 at 24 bits per pixel is merged with
depth 16. -/
theorem foundSkin_depth_witness :
    findDisplay depth24Root = some depth24Display ∧
      0 < aconfig_int lp64Host.LONG_MAX depth24Display "width" namedHwConfig.hw_lcd_width ∧
      0 < aconfig_int lp64Host.LONG_MAX depth24Display "height" namedHwConfig.hw_lcd_height ∧
      (foundSkin lp64Host.LONG_MAX depth24Root ":" namedHwConfig).hwConfig.hw_lcd_depth =
        (if aconfig_int lp64Host.LONG_MAX depth24Display "bpp" namedHwConfig.hw_lcd_depth = 16 ∨
            aconfig_int lp64Host.LONG_MAX depth24Display "bpp" namedHwConfig.hw_lcd_depth = 32
          then aconfig_int lp64Host.LONG_MAX depth24Display "bpp" namedHwConfig.hw_lcd_depth
          else 16) :=
  ⟨by rfl, by decide, by decide,
    foundSkin_depth lp64Host.LONG_MAX depth24Root depth24Display ":" namedHwConfig (by rfl)
      (by decide) (by decide)⟩

set_option maxRecDepth 100000 in
/-- C9, as stated, fails: with no skin name and a built-in layout without a
display node, `parse_skin_files` returns and leaves the incoming LCD values
321 x 481 x 24 as they are: no multiples of 4, and a depth that is neither 16
nor 32. -/
theorem parse_skin_files_keeps_lcd :
    (parse_skin_files lp64Host none none namedHwConfig).toOption.map
        (fun r => lcdOf r.hwConfig) = some (321, 481, 24) ∧
      (321 : Int) % 4 = 1 ∧ (481 : Int) % 4 = 1 := by
  decide

/-- C9, amended: for every skin name, skin directory state and incoming hardware
configuration on which `parse_skin_files` returns, either the LCD width, height
and depth are all left as they came in (no display node, or one with
non-positive width or height), or the LCD width and height are multiples of 4
and the LCD depth is 16 or 32. -/
theorem parse_skin_files_lcd (host : Host) (skinDirPath skinName : Option String)
    (hw : AndroidHwConfig) (r : SkinFiles)
    (h : parse_skin_files host skinDirPath skinName hw = .ok r) :
    lcdOf r.hwConfig = lcdOf hw ∨
      (r.hwConfig.hw_lcd_width % 4 = 0 ∧ r.hwConfig.hw_lcd_height % 4 = 0 ∧
        (r.hwConfig.hw_lcd_depth = 16 ∨ r.hwConfig.hw_lcd_depth = 32)) := by
  obtain ⟨root, path, rfl⟩ := parse_skin_files_ok host skinDirPath skinName hw r h
  exact foundSkin_lcd _ _ _ _

set_option maxRecDepth 100000 in
/-- Witness of C9 (amended): the skin name "233x301". -/
theorem parse_skin_files_lcd_witness :
    ∃ r, parse_skin_files lp64Host none (some "233x301") namedHwConfig = .ok r ∧
      (lcdOf r.hwConfig = lcdOf namedHwConfig ∨
        (r.hwConfig.hw_lcd_width % 4 = 0 ∧ r.hwConfig.hw_lcd_height % 4 = 0 ∧
          (r.hwConfig.hw_lcd_depth = 16 ∨ r.hwConfig.hw_lcd_depth = 32))) :=
  ⟨_, rfl, parse_skin_files_lcd lp64Host none (some "233x301") namedHwConfig _ rfl⟩

set_option maxRecDepth 100000 in
/-- C10 at the failing input: the lookup of `parse_skin_files` asks the root for
`parts`, then again the root for `device` and for `display`, so it finds
exactly the root's own `display` node and never a nested one. For the skin
`skins/v2`, whose layout has `display` (320 x 480 x 32) under `parts`, `device`
and none at the root, the lookup finds nothing and the LCD values stay
321 x 481 x 24. -/
theorem findDisplay_ignores_nested :
    (∀ root : AConfig, findDisplay root = aconfig_find root "display") ∧
    (skinV2Host.fileText "skins/v2/layout").map
        (fun text => ((specNestedDisplay (aconfig_load (aconfig_node "" "") text)).map
            (fun n => (aconfig_int skinV2Host.LONG_MAX n "width" 0,
              aconfig_int skinV2Host.LONG_MAX n "height" 0,
              aconfig_int skinV2Host.LONG_MAX n "bpp" 0)),
          (aconfig_find (aconfig_load (aconfig_node "" "") text) "display").isSome,
          (findDisplay (aconfig_load (aconfig_node "" "") text)).isSome))
      = some (some (320, 480, 32), false, false) ∧
    (parse_skin_files skinV2Host (some "skins") (some "v2") namedHwConfig).toOption.map
        (fun r => (lcdOf r.hwConfig, r.skinPath)) = some ((321, 481, 24), "skins/v2/") := by
  refine ⟨?_, ?_, ?_⟩
  · intro root
    unfold findDisplay
    cases h : aconfig_find root "display" with
    | some n => rfl
    | none =>
      simp only []
      cases aconfig_find root "parts" <;> cases aconfig_find root "device" <;> rfl
  · decide
  · decide

/-! ## Properties of the legacy options -/

/-- C13: for all values X and Y, the legacy block of `createAVD` run on an option
set with image = X, system = Y and no sysdir succeeds and yields the option set
with sysdir = Y, system = X and image unset, every other option unchanged. -/
theorem legacyOptions_image (host : Host) (opts : AndroidOptions) (X Y : String)
    (hi : opts.image = some X) (hs : opts.system = some Y) (hd : opts.sysdir = none) :
    legacyOptions host opts
      = .ok { opts with sysdir := some Y, system := some X, image := none } := by
  simp [legacyOptions, hi, hs, hd]

/-- Witness of C13: image = "system.img", system = "/sdk/images". -/
theorem legacyOptions_image_witness :
    legacyOptions lp64Host { image := some "system.img", system := some "/sdk/images" }
      = .ok { sysdir := some "/sdk/images", system := some "system.img" } :=
  legacyOptions_image lp64Host { image := some "system.img", system := some "/sdk/images" }
    "system.img" "/sdk/images" rfl rfl rfl

/-- C14: the legacy block of `createAVD` ends in a fatal error exactly when
image, system and sysdir are all present, or image is absent, system is present
and points to a directory, and sysdir is present; every other option set passes.
With image and sysdir absent, a system value that points to a directory is moved
to sysdir and system is cleared, and any other system value is left alone. -/
theorem legacyOptions_conflict (host : Host) (opts : AndroidOptions) :
    ((∃ e, legacyOptions host opts = .error e) ↔
      ((opts.image ≠ none ∧ opts.system ≠ none ∧ opts.sysdir ≠ none) ∨
        (opts.image = none ∧ (∃ s, opts.system = some s ∧ host.path_is_dir s = true) ∧
          opts.sysdir ≠ none))) ∧
    (∀ s : String,
      legacyOptions host { opts with image := none, system := some s, sysdir := none }
        = if host.path_is_dir s = true then
            .ok { opts with image := none, sysdir := some s, system := none }
          else .ok { opts with image := none, system := some s, sysdir := none }) := by
  constructor
  · unfold legacyOptions
    by_cases hi : opts.image = none
    · rw [if_neg (not_not.mpr hi)]
      cases hs : opts.system with
      | none => simp [hi]
      | some s =>
        simp only []
        by_cases hdir : host.path_is_dir s = true
        · rw [if_pos hdir]
          by_cases hd : opts.sysdir = none
          · simp [hi, hd]
          · simp [hi, hd, hdir]
        · rw [if_neg hdir]
          simp [hi, hdir]
    · rw [if_pos hi]
      by_cases hc : opts.system ≠ none ∧ opts.sysdir ≠ none
      · rw [if_pos hc]
        simp [hi, hc.1, hc.2]
      · rw [if_neg hc]
        simp only [hi, false_and, or_false]
        constructor
        · rintro ⟨e, he⟩
          cases he
        · rintro ⟨_, h2, h3⟩
          exact absurd ⟨h2, h3⟩ hc
  · intro s
    simp only [legacyOptions]
    by_cases hdir : host.path_is_dir s = true
    · simp [hdir]
    · simp [hdir]

/-! ## Further properties of the partition sizes and of the skin -/

theorem dataPartitionSize_eq_spec (host : Host) (avd : AvdInfo) (opts : AndroidOptions)
    (d : Nat) (inAndroidBuild : Bool) :
    (dataPartitionSize host avd opts d inAndroidBuild).1
      = specDataSize host avd opts d inAndroidBuild := by
  unfold dataPartitionSize specDataSize specDataSource
  simp only [ite_self]
  have tail : ∀ q : String,
      (if (!host.path_exists q) = true then (d, false)
        else _adjustPartitionSize (host.path_get_size q % 2 ^ 64) d inAndroidBuild).1
      = (if host.path_exists q = true then
          (_adjustPartitionSize (host.path_get_size q % 2 ^ 64) d inAndroidBuild).1
        else d) := by
    intro q
    by_cases hq : host.path_exists q = true
    · simp [hq]
    · simp [hq]
  cases h1 : avd.getImageFile AVD_IMAGE_USERDATA with
  | none =>
    simp only [Bool.true_or, if_true]
    cases h2 : avd.getImageFile AVD_IMAGE_INITDATA with
    | none => rfl
    | some q => exact tail q
  | some p =>
    simp only []
    by_cases hp : host.path_exists p = true
    · by_cases hw : opts.wipe_data = true
      · simp only [hp, hw, Bool.not_true, Bool.false_or, if_true, Bool.true_eq_false, and_false,
          if_false]
        cases h2 : avd.getImageFile AVD_IMAGE_INITDATA with
        | none => rfl
        | some q => exact tail q
      · have hw2 : opts.wipe_data = false := by simpa using hw
        simp only [hp, hw2, Bool.not_true, Bool.or_self, Bool.false_eq_true, if_false, and_self,
          if_true]
    · have hp2 : host.path_exists p = false := by simpa using hp
      simp only [hp2, Bool.not_false, Bool.true_or, if_true, Bool.false_eq_true, false_and,
        if_false]
      cases h2 : avd.getImageFile AVD_IMAGE_INITDATA with
      | none => rfl
      | some q => exact tail q

/-- C15: when `updateHwConfigFromAVD` returns, the data partition size is the one
the specification words: the source is the user-data-runtime image when it has
a path, exists and wipe-data is not set, otherwise the initial user-data image;
without a path or a file for the source the size is the default, otherwise it
is `_adjustPartitionSize` of the source's size and the default. -/
theorem updateHwConfigFromAVD_data_size (host : Host) (hwConfig : AndroidHwConfig)
    (avd : AvdInfo) (opts : AndroidOptions) (inAndroidBuild : Bool) (u : HwUpdate)
    (h : updateHwConfigFromAVD host hwConfig avd opts inAndroidBuild = .ok u) :
    ∃ d, defaultPartitionSize host opts = .ok d ∧
      u.hwConfig.disk_dataPartition_size = specDataSize host avd opts d inAndroidBuild := by
  simp only [updateHwConfigFromAVD] at h
  split_ifs at h with h1 h2 h3
  cases hd : defaultPartitionSize host opts with
  | error e => simp [hd] at h
  | ok d =>
    refine ⟨d, rfl, ?_⟩
    simp only [hd, Except.ok.injEq] at h
    subst h
    exact dataPartitionSize_eq_spec host avd opts d inAndroidBuild

/-- Witness of C15: a device with both user-data images. -/
theorem updateHwConfigFromAVD_data_size_witness :
    ∃ u, updateHwConfigFromAVD dataHost namedHwConfig dataAvd {} false = .ok u ∧
      ∃ d, defaultPartitionSize dataHost {} = .ok d ∧
        u.hwConfig.disk_dataPartition_size = specDataSize dataHost dataAvd {} d false :=
  ⟨_, rfl, updateHwConfigFromAVD_data_size dataHost namedHwConfig dataAvd {} false _ rfl⟩

/-- The data partition with a runtime image, with wipe-data, and without images. -/
theorem data_size_examples :
    (updateHwConfigFromAVD dataHost namedHwConfig dataAvd {} false).toOption.map
        (fun u => u.hwConfig.disk_dataPartition_size) = some (100 * ONE_MB) ∧
    (updateHwConfigFromAVD dataHost namedHwConfig dataAvd { wipe_data := true } false).toOption.map
        (fun u => u.hwConfig.disk_dataPartition_size) = some (70 * ONE_MB) ∧
    (updateHwConfigFromAVD lp64Host namedHwConfig dataAvd {} false).toOption.map
        (fun u => u.hwConfig.disk_dataPartition_size) = some (66 * ONE_MB) := by
  decide

/-- C16: for every display node `n` found by `parse_skin_files` whose parsed
width or height is not positive, the hardware configuration, and so its LCD
width, height and depth, is after the call what it was before. -/
theorem foundSkin_ignores_nonpositive (longMax : Int) (root n : AConfig) (path : String)
    (hw : AndroidHwConfig) (hn : findDisplay root = some n)
    (hnp : aconfig_int longMax n "width" hw.hw_lcd_width ≤ 0 ∨
      aconfig_int longMax n "height" hw.hw_lcd_height ≤ 0) :
    (foundSkin longMax root path hw).hwConfig = hw ∧
      lcdOf (foundSkin longMax root path hw).hwConfig = lcdOf hw := by
  have e : (foundSkin longMax root path hw).hwConfig = hw := by
    simp only [foundSkin, hn]
    apply mergeDisplay_not_pos
    rintro ⟨h1, h2⟩
    rcases hnp with h | h <;> omega
  rw [e]
  exact ⟨rfl, rfl⟩

set_option maxRecDepth 100000 in
/-- Witness of C16: a display node of width 0. -/
theorem foundSkin_ignores_nonpositive_witness :
    findDisplay zeroWidthRoot = some zeroWidthDisplay ∧
      (aconfig_int lp64Host.LONG_MAX zeroWidthDisplay "width" namedHwConfig.hw_lcd_width ≤ 0 ∨
        aconfig_int lp64Host.LONG_MAX zeroWidthDisplay "height" namedHwConfig.hw_lcd_height ≤ 0) ∧
      (foundSkin lp64Host.LONG_MAX zeroWidthRoot ":" namedHwConfig).hwConfig = namedHwConfig ∧
      lcdOf (foundSkin lp64Host.LONG_MAX zeroWidthRoot ":" namedHwConfig).hwConfig
        = lcdOf namedHwConfig :=
  ⟨by rfl, Or.inl (by decide),
    foundSkin_ignores_nonpositive lp64Host.LONG_MAX zeroWidthRoot zeroWidthDisplay ":"
      namedHwConfig (by rfl) (Or.inl (by decide))⟩

theorem aliasedSkinName_320x240 (host : Host) (skinDirPath : Option String) :
    aliasedSkinName host skinDirPath "320x240" = "320x240" := by
  have hfind : skin_aliases.find? (fun a => strcasecmpEq a.1 "320x240") = none := by decide
  unfold aliasedSkinName
  simp only [hfind]
  split_ifs <;> rfl

theorem aliasedSkinName_QVGA (host : Host) (skinDirPath : Option String)
    (h : ∀ dir, skinDirPath = some dir →
      host.path_exists (truncateTo 1024 (dir ++ "/" ++ "QVGA")) = false) :
    aliasedSkinName host skinDirPath "QVGA" = "320x240" := by
  have hfind : skin_aliases.find? (fun a => strcasecmpEq a.1 "QVGA")
      = some ("QVGA", "320x240") := by decide
  unfold aliasedSkinName
  simp only [hfind]
  cases skinDirPath with
  | none => rfl
  | some dir => simp [h dir rfl]

set_option maxRecDepth 100000 in
/-- C12, as stated, fails: when the skin directory holds a `QVGA` entry the alias
is not applied, and "QVGA" loads `skins/QVGA/layout` while "320x240" gives the
synthesized 320 x 240 display. -/
theorem parse_skin_files_QVGA_directory :
    (parse_skin_files qvgaDirHost (some "skins") (some "QVGA") namedHwConfig).toOption.map
        (fun r => (r.skinPath, lcdOf r.hwConfig)) = some ("skins/QVGA/", (100, 200, 32)) ∧
    (parse_skin_files qvgaDirHost (some "skins") (some "320x240") namedHwConfig).toOption.map
        (fun r => (r.skinPath, lcdOf r.hwConfig)) = some (":", (320, 240, 16)) := by
  decide

/-- C12, amended: for every incoming hardware configuration and every skin search
directory (including none) under which no entry `QVGA` exists,
`parse_skin_files` called with skin name "QVGA" returns exactly what it returns
for skin name "320x240": the same tree, base path and hardware configuration. -/
theorem parse_skin_files_QVGA (host : Host) (skinDirPath : Option String)
    (hw : AndroidHwConfig)
    (h : ∀ dir, skinDirPath = some dir →
      host.path_exists (truncateTo 1024 (dir ++ "/" ++ "QVGA")) = false) :
    parse_skin_files host skinDirPath (some "QVGA") hw
      = parse_skin_files host skinDirPath (some "320x240") hw := by
  simp only [parse_skin_files, aliasedSkinName_QVGA host skinDirPath h,
    aliasedSkinName_320x240 host skinDirPath]

/-- Witness of C12 (amended): a skin directory without a `QVGA` entry. -/
theorem parse_skin_files_QVGA_witness :
    (∀ dir, some "skins" = some dir →
      lp64Host.path_exists (truncateTo 1024 (dir ++ "/" ++ "QVGA")) = false) ∧
    parse_skin_files lp64Host (some "skins") (some "QVGA") namedHwConfig
      = parse_skin_files lp64Host (some "skins") (some "320x240") namedHwConfig :=
  ⟨fun _ _ => rfl,
    parse_skin_files_QVGA lp64Host (some "skins") namedHwConfig (fun _ _ => rfl)⟩

theorem magicSkin_isSome (longMax : Int) (s : List Char) :
    (magicSkin longMax s).isSome = looksMagic s := by
  unfold magicSkin looksMagic
  by_cases h1 : s.head?.map isdigit = some true
  · rw [if_pos h1]
    cases hx : strchr s 'x' with
    | none => simp [h1]
    | some x =>
      simp only []
      by_cases h2 : (charAt1 x).map isdigit = some true
      · rw [if_pos h2]
        simp [h1, h2]
      · rw [if_neg h2]
        simp [h1, h2]
  · rw [if_neg h1]
    simp [h1]

theorem magicSkin_eq_none (longMax : Int) (s : List Char) (h : looksMagic s = false) :
    magicSkin longMax s = none := by
  have := magicSkin_isSome longMax s
  rw [h] at this
  cases hm : magicSkin longMax s with
  | none => rfl
  | some t => rw [hm] at this; cases this

set_option maxRecDepth 100000 in
/-- C17, as stated, fails: "3ax2b" and "320x240-foo" are not of the shape
digits, `x`, digits, yet `parse_skin_files` synthesizes a display from them
(3 x 2, rounded to 4 x 4, and 320 x 240) and looks up no directory. -/
theorem parse_skin_files_loose_shape :
    (parse_skin_files lp64Host (some "skins") (some "3ax2b") namedHwConfig).toOption.map
        (fun r => (r.skinPath, lcdOf r.hwConfig)) = some (":", (4, 4, 16)) ∧
    (parse_skin_files lp64Host (some "skins") (some "320x240-foo") namedHwConfig).toOption.map
        (fun r => (r.skinPath, lcdOf r.hwConfig)) = some (":", (320, 240, 16)) := by
  decide

/-- C17, amended: the shape test of `parse_skin_files` is `looksMagic` (first
character a digit, and a digit after the first `x`). For every skin name whose
aliased form fails that test no display node is synthesized: with a skin search
root the name is taken as a directory under it, whose layout file is loaded,
falling back to the built-in layout when loading fails; without a search root
the call ends in the fatal error "unknown skin name". -/
theorem parse_skin_files_not_magic (host : Host) (skinDirPath : Option String)
    (skinName : String) (hw : AndroidHwConfig)
    (h : looksMagic (aliasedSkinName host skinDirPath skinName).toList = false) :
    parse_skin_files host skinDirPath (some skinName) hw =
      (match skinDirPath with
        | none => .error ⟨1, "unknown skin name"⟩
        | some dir =>
          match host.fileText (truncateTo 1024
              (dir ++ "/" ++ aliasedSkinName host skinDirPath skinName ++ "/layout")) with
          | none => defaultSkin host (aconfig_node "" "") hw
          | some text =>
            .ok (foundSkin host.LONG_MAX (aconfig_load (aconfig_node "" "") text)
              (truncateTo 1024 (dir ++ "/" ++ aliasedSkinName host skinDirPath skinName ++ "/"))
              hw)) ∧
      ∀ s : List Char, (magicSkin host.LONG_MAX s).isSome = looksMagic s := by
  refine ⟨?_, magicSkin_isSome host.LONG_MAX⟩
  simp only [parse_skin_files, magicSkin_eq_none host.LONG_MAX _ h]
  cases skinDirPath with
  | none => rfl
  | some dir =>
    rfl

set_option maxRecDepth 100000 in
/-- Witness of C17 (amended): the skin `v2` under `skins`. -/
theorem parse_skin_files_not_magic_witness :
    looksMagic (aliasedSkinName skinV2Host (some "skins") "v2").toList = false ∧
    (parse_skin_files skinV2Host (some "skins") (some "v2") namedHwConfig).toOption.map
      (fun r => r.skinPath) = some "skins/v2/" :=
  ⟨by decide,
    by
      rw [(parse_skin_files_not_magic skinV2Host (some "skins") "v2" namedHwConfig
        (by decide)).1]
      decide⟩

/-! ## Properties of `createAVD` -/

theorem legacyOptions_avd (host : Host) (opts o : AndroidOptions)
    (h : legacyOptions host opts = .ok o) : o.avd = opts.avd := by
  unfold legacyOptions at h
  by_cases hi : opts.image ≠ none
  · rw [if_pos hi] at h
    by_cases hc : opts.system ≠ none ∧ opts.sysdir ≠ none
    · rw [if_pos hc] at h
      cases h
    · rw [if_neg hc, Except.ok.injEq] at h
      subst h
      rfl
  · rw [if_neg hi] at h
    cases hs : opts.system with
    | none =>
      simp only [hs, Except.ok.injEq] at h
      subst h
      rfl
    | some s =>
      simp only [hs] at h
      by_cases hdir : host.path_is_dir s = true
      · rw [if_pos hdir] at h
        by_cases hd : opts.sysdir ≠ none
        · rw [if_pos hd] at h
          cases h
        · rw [if_neg hd, Except.ok.injEq] at h
          subst h
          rfl
      · rw [if_neg hdir, Except.ok.injEq] at h
        subst h
        rfl

theorem buildTreeProbe_named (host : Host) (world : SdkWorld) (opts : AndroidOptions)
    (h : opts.avd ≠ none) : buildTreeProbe host world opts = .ok (none, none) := by
  unfold buildTreeProbe
  rw [if_neg h]

theorem autodetectSdk_ok (host : Host) (world : SdkWorld) (opts o : AndroidOptions)
    (h : autodetectSdk host world opts = .ok o) : o.avd = opts.avd ∧ o.sysdir ≠ none := by
  unfold autodetectSdk at h
  simp only [] at h
  split at h
  · cases h
  · split at h
    · cases h
    · split at h
      · cases h
      · split at h
        · cases h
        · split at h
          · cases h
          · simp only [Except.ok.injEq] at h
            subst h
            exact ⟨rfl, by simp⟩

theorem newDevice_flag (world : SdkWorld) (opts : AndroidOptions) (params : AvdInfoParams)
    (root out : Option String) (r : CreatedAvd)
    (h : newDevice world opts params root out = .ok r)
    (hnamed : opts.avd ≠ none → out = none)
    (hdir : opts.avd = none → out = none → opts.sysdir ≠ none) :
    r.inAndroidBuild = (if opts.avd = none then 1 else 0) := by
  unfold newDevice at h
  cases ha : opts.avd with
  | some name =>
    simp only [ha] at h
    cases hn : world.avdInfo_new name params with
    | none => simp [hn] at h
    | some ret =>
      simp only [hn, Except.ok.injEq] at h
      subst h
      have : out = none := hnamed (by simp [ha])
      simp [this]
  | none =>
    simp only [ha] at h
    split at h
    · cases h
    · simp only [Except.ok.injEq] at h
      subst h
      by_cases ho : out = none
      · have := hdir ha ho
        simp [ho, this]
      · simp [ho]

/-- C18, amended: on every successful return of `createAVD` the in-build flag is
1 exactly when no device name was given, whether the device comes from the
build tree or from auto-detected SDK directories, and 0 for a named device. -/
theorem createAVD_inAndroidBuild (host : Host) (world : SdkWorld) (opts : AndroidOptions)
    (params : AvdInfoParams) (r : CreatedAvd)
    (h : createAVD host world opts params = .ok r) :
    r.inAndroidBuild = (if opts.avd = none then 1 else 0) := by
  unfold createAVD at h
  simp only [] at h
  cases h1 : legacyOptions host opts with
  | error e => simp [h1] at h
  | ok opts1 =>
    have ha1 := legacyOptions_avd host opts opts1 h1
    simp only [h1] at h
    cases h2 : buildTreeProbe host world opts1 with
    | error e => simp [h2] at h
    | ok build =>
      simp only [h2] at h
      have hnamed : opts1.avd ≠ none → build.2 = none := by
        intro hne
        rw [buildTreeProbe_named host world opts1 hne] at h2
        simp only [Except.ok.injEq] at h2
        rw [← h2]
      cases h3 : (if opts1.avd = none ∧ build.2 = none then autodetectSdk host world opts1
          else Except.ok opts1) with
      | error e => simp [h3] at h
      | ok opts2 =>
        simp only [h3] at h
        have ha2 : opts2.avd = opts1.avd ∧
            (opts1.avd = none → build.2 = none → opts2.sysdir ≠ none) := by
          split_ifs at h3 with hc
          · have := autodetectSdk_ok host world opts1 opts2 h3
            exact ⟨this.1, fun _ _ => this.2⟩
          · simp only [Except.ok.injEq] at h3
            subst h3
            exact ⟨rfl, fun x y => absurd ⟨x, y⟩ hc⟩
        cases h4 : forceImagePaths host opts2 (params.forcePaths) with
        | error e => simp [h4] at h
        | ok fp =>
          simp only [h4] at h
          split_ifs at h with hskin hs
          · have := newDevice_flag world _ _ _ _ r h
              (by intro hne; exact hnamed (by rw [← ha2.1]; exact hne))
              (by
                intro hn ho
                have := ha2.2 (by rw [← ha2.1]; exact hn) ho
                exact this)
            rw [this, ← ha1, ← ha2.1]
          · have := newDevice_flag world _ _ _ _ r h
              (by intro hne; exact hnamed (by rw [← ha2.1]; exact hne))
              (by
                intro hn ho
                exact ha2.2 (by rw [← ha2.1]; exact hn) ho)
            rw [this, ← ha1, ← ha2.1]

/-- C18, as stated, fails: without a device name and without
`ANDROID_PRODUCT_OUT`, the device auto-detected in `/sdk/tools` is returned with
the in-build flag 1 (for the named device "test" it is 0). -/
theorem createAVD_autodetected_inAndroidBuild :
    (createAVD sdkHost sdkWorld {} noParams).toOption.map
        (fun r => (r.inAndroidBuild, r.opts.sysdir)) = some (1, some "/sdk/tools") ∧
      sdkWorld.getenv "ANDROID_PRODUCT_OUT" = none ∧
      (createAVD sdkHost sdkWorld { avd := some "test" } noParams).toOption.map
        (fun r => r.inAndroidBuild) = some 0 := by
  decide

/-- Witness of C18 (amended): the named device "test". -/
theorem createAVD_inAndroidBuild_witness :
    ∃ r, createAVD sdkHost sdkWorld { avd := some "test" } noParams = .ok r ∧
      r.inAndroidBuild = 0 :=
  ⟨_, rfl, createAVD_inAndroidBuild sdkHost sdkWorld { avd := some "test" } noParams _ rfl⟩

/-! ## Properties of skin names like "320x240" -/

theorem isDigits_cons (text : List Char) (h : isDigits text = true) :
    ∃ c rest, text = c :: rest ∧ isdigit c = true ∧ ∀ d ∈ rest, isdigit d = true := by
  cases text with
  | nil => simp [isDigits] at h
  | cons c rest =>
    simp only [isDigits, List.isEmpty_cons, Bool.not_false, Bool.true_and, List.all_cons,
      Bool.and_eq_true, List.all_eq_true] at h
    exact ⟨c, rest, rfl, h.1, h.2⟩

theorem isDigits_all (text : List Char) (h : isDigits text = true) :
    ∀ d ∈ text, isdigit d = true := by
  obtain ⟨c, rest, rfl, hc, hr⟩ := isDigits_cons text h
  intro d hd
  rcases List.mem_cons.mp hd with rfl | hd
  · exact hc
  · exact hr d hd

theorem isdigit_bounds (c : Char) (h : isdigit c = true) : 48 ≤ c.toNat ∧ c.toNat ≤ 57 := by
  simpa [isdigit] using h

theorem digitValue_digit (c : Char) (h : isdigit c = true) : digitValue c = c.toNat - 48 := by
  simp [digitValue, h]

theorem isspace_digit (c : Char) (h : isdigit c = true) : isspace c = false := by
  have := isdigit_bounds c h
  simp only [isspace, Bool.or_eq_false_iff, beq_eq_false_iff_ne, Bool.and_eq_false_iff,
    decide_eq_false_iff_not]
  omega

theorem ne_of_toNat_ne (c d : Char) (h : c.toNat ≠ d.toNat) : c ≠ d := by
  intro e
  exact h (by rw [e])

theorem strtolDigits_digits (text : List Char) (h : ∀ d ∈ text, isdigit d = true)
    (rest : List Char) (hrest : ∀ c r, rest = c :: r → ¬ digitValue c < 10) (acc : Nat) :
    strtolDigits 10 (text ++ rest) acc
      = (text.foldl (fun a c => a * 10 + (c.toNat - 48)) acc, rest) := by
  induction text generalizing acc with
  | nil =>
    cases rest with
    | nil => rfl
    | cons c r =>
      simp only [List.nil_append, strtolDigits, List.foldl_nil]
      rw [if_neg (hrest c r rfl)]
  | cons d ds ih =>
    have hd := h d (List.mem_cons_self d ds)
    have hb := isdigit_bounds d hd
    simp only [List.cons_append, strtolDigits, List.foldl_cons]
    have hv : digitValue d < 10 := by
      rw [digitValue_digit d hd]
      omega
    rw [if_pos hv, digitValue_digit d hd]
    exact ih (fun x hx => h x (List.mem_cons_of_mem d hx)) _

theorem wrapInt32_small (v : Nat) (h : v ≤ 2 ^ 31 - 1) : wrapInt32 (v : Int) = (v : Int) := by
  unfold wrapInt32
  omega

theorem strtol_sign_none {α : Type} (c : Char) (rest : List Char) (hminus : c ≠ '-')
    (hplus : c ≠ '+') (f1 f2 f3 : List Char → α) :
    strtol.match_1 (fun _ => α) (c :: rest) f1 f2 f3 = f3 (c :: rest) := by
  unfold strtol.match_1
  simp only [dif_neg hminus, dif_neg hplus]

theorem strtol_base_decimal {α : Type} (c : Char) (rest : List Char) (hzero : c ≠ '0')
    (f1 : Char → Char → List Char → α) (f2 f3 : List Char → α) :
    strtol.match_2 (fun _ => α) (c :: rest) f1 f2 f3 = f3 (c :: rest) := by
  unfold strtol.match_2
  simp only [dif_neg hzero]

theorem strtol_base10 (longMax : Int) (c : Char) (rest : List Char)
    (hc : isdigit c = true) :
    strtol longMax (c :: rest) 10 =
      (max (-longMax - 1) (min longMax ((strtolDigits 10 (c :: rest) 0).1 : Int)),
        (strtolDigits 10 (c :: rest) 0).2) := by
  have hb := isdigit_bounds c hc
  have hsp := isspace_digit c hc
  have hminus : c ≠ '-' := ne_of_toNat_ne _ _ (by
    have : ('-' : Char).toNat = 45 := rfl
    omega)
  have hplus : c ≠ '+' := ne_of_toNat_ne _ _ (by
    have : ('+' : Char).toNat = 43 := rfl
    omega)
  have hv : digitValue c < 10 := by
    rw [digitValue_digit c hc]
    omega
  have hdrop : (c :: rest).dropWhile isspace = c :: rest := by
    simp [List.dropWhile, hsp]
  unfold strtol
  simp only [hdrop, strtol_sign_none c rest hminus hplus,
    show ¬ ((10 : Nat) = 0) by decide, if_false, if_pos hv, Bool.false_eq_true]

theorem atoi_digits (longMax : Int) (hlong : 2 ^ 31 - 1 ≤ longMax) (text : List Char)
    (h : isDigits text = true) (hr : decimalValue text ≤ 2 ^ 31 - 1)
    (rest : List Char) (hrest : ∀ c r, rest = c :: r → ¬ digitValue c < 10) :
    atoi longMax (text ++ rest) = (decimalValue text : Int) := by
  obtain ⟨c, ds, rfl, hc, hds⟩ := isDigits_cons text h
  have hall : ∀ d ∈ c :: ds, isdigit d = true := isDigits_all _ h
  have hdig := strtolDigits_digits (c :: ds) hall rest hrest 0
  unfold atoi
  rw [List.cons_append, strtol_base10 longMax c (ds ++ rest) hc]
  rw [List.cons_append] at hdig
  simp only [hdig]
  have hval : List.foldl (fun a c => a * 10 + (c.toNat - 48)) 0 (c :: ds) = decimalValue (c :: ds) :=
    rfl
  rw [hval]
  have h1 : min longMax (decimalValue (c :: ds) : Int) = (decimalValue (c :: ds) : Int) := by
    apply min_eq_right
    omega
  rw [h1]
  have h2 : max (-longMax - 1) (decimalValue (c :: ds) : Int) = (decimalValue (c :: ds) : Int) := by
    apply max_eq_right
    omega
  rw [h2]
  exact wrapInt32_small _ hr


theorem digit_ne_x (c : Char) (h : isdigit c = true) : c ≠ 'x' := by
  have hb := isdigit_bounds c h
  apply ne_of_toNat_ne
  have : ('x' : Char).toNat = 120 := rfl
  omega

theorem strchr_digits (text : List Char) (h : ∀ d ∈ text, isdigit d = true)
    (rest : List Char) : strchr (text ++ 'x' :: rest) 'x' = some ('x' :: rest) := by
  induction text with
  | nil => simp [strchr]
  | cons d ds ih =>
    have hd := digit_ne_x d (h d (List.mem_cons_self d ds))
    simp only [List.cons_append, strchr, if_neg hd]
    exact ih (fun x hx => h x (List.mem_cons_of_mem d hx))

theorem strchr_digits_none (text : List Char) (h : ∀ d ∈ text, isdigit d = true) :
    strchr text 'x' = none := by
  induction text with
  | nil => rfl
  | cons d ds ih =>
    have hd := digit_ne_x d (h d (List.mem_cons_self d ds))
    simp only [strchr, if_neg hd]
    exact ih (fun x hx => h x (List.mem_cons_of_mem d hx))

theorem stops_x (rest0 : List Char) :
    ∀ c r, ('x' :: rest0) = c :: r → ¬ digitValue c < 10 := by
  intro c r heq
  have hc : c = 'x' := (List.cons.inj heq).1.symm
  rw [hc]
  decide

theorem stops_nil : ∀ (c : Char) (r : List Char), ([] : List Char) = c :: r → ¬ digitValue c < 10 := by
  intro c r heq
  cases heq

theorem tolower_digit (c : Char) (h : isdigit c = true) : tolower c = c := by
  have hb := isdigit_bounds c h
  unfold tolower
  rw [if_neg (by omega)]

theorem strcasecmpEq_digit (a : String) (a0 : Char) (as : List Char) (c : Char)
    (rest : List Char) (ha : a.toList = a0 :: as) (hc : isdigit c = true)
    (hne : tolower a0 ≠ c) : strcasecmpEq a (String.mk (c :: rest)) = false := by
  unfold strcasecmpEq
  rw [ha]
  have e : (String.mk (c :: rest)).toList = c :: rest := rfl
  rw [e, List.map_cons, List.map_cons, tolower_digit c hc]
  apply beq_eq_false_iff_ne.mpr
  intro heq
  exact hne (List.cons.inj heq).1

theorem aliasedSkinName_digit (host : Host) (skinDirPath : Option String) (c : Char)
    (rest : List Char) (hc : isdigit c = true) :
    aliasedSkinName host skinDirPath (String.mk (c :: rest)) = String.mk (c :: rest) := by
  have hb := isdigit_bounds c hc
  have hq : tolower 'Q' ≠ c := by
    have e : tolower 'Q' = 'q' := by decide
    rw [e]
    apply ne_of_toNat_ne
    have : ('q' : Char).toNat = 113 := rfl
    omega
  have hh : tolower 'H' ≠ c := by
    have e : tolower 'H' = 'h' := by decide
    rw [e]
    apply ne_of_toNat_ne
    have : ('h' : Char).toNat = 104 := rfl
    omega
  have hfind : skin_aliases.find? (fun a => strcasecmpEq a.1 (String.mk (c :: rest))) = none := by
    simp only [skin_aliases, List.find?]
    rw [strcasecmpEq_digit "QVGA-L" 'Q' _ c rest rfl hc hq]
    rw [strcasecmpEq_digit "QVGA-P" 'Q' _ c rest rfl hc hq]
    rw [strcasecmpEq_digit "HVGA-L" 'H' _ c rest rfl hc hh]
    rw [strcasecmpEq_digit "HVGA-P" 'H' _ c rest rfl hc hh]
    rw [strcasecmpEq_digit "QVGA" 'Q' _ c rest rfl hc hq]
    rw [strcasecmpEq_digit "HVGA" 'H' _ c rest rfl hc hh]
  unfold aliasedSkinName
  simp only [hfind]
  split_ifs <;> rfl


theorem magicSkin_digits (longMax : Int) (hlong : 2 ^ 31 - 1 ≤ longMax)
    (w h : List Char) (d : Option (List Char))
    (hw : isDigits w = true) (hh : isDigits h = true)
    (hd : ∀ x, d = some x → isDigits x = true)
    (hwr : decimalValue w ≤ 2 ^ 31 - 1) (hhr : decimalValue h ≤ 2 ^ 31 - 1)
    (hdr : ∀ x, d = some x → decimalValue x ≤ 2 ^ 31 - 1) :
    magicSkin longMax (magicName w h d).toList
      = some (truncateTo 1024
          (displayText (decimalValue w) (decimalValue h) (magicDepth d))) := by
  obtain ⟨cw, rw_, rfl, hcw, hrw⟩ := isDigits_cons w hw
  obtain ⟨ch, rh, rfl, hch, hrh⟩ := isDigits_cons h hh
  have hwall := isDigits_all _ hw
  have hhall := isDigits_all _ hh
  cases d with
  | none =>
    have hname : (magicName (cw :: rw_) (ch :: rh) none).toList
        = (cw :: rw_) ++ 'x' :: ((ch :: rh) ++ []) := by
      simp [magicName]
    rw [hname]
    have hx := strchr_digits (cw :: rw_) hwall ((ch :: rh) ++ [])
    have hwa := atoi_digits longMax hlong (cw :: rw_) hw hwr ('x' :: ((ch :: rh) ++ []))
      (stops_x _)
    have hha := atoi_digits longMax hlong (ch :: rh) hh hhr [] stops_nil
    have hy : strchr ((ch :: rh) ++ []) 'x' = none := by
      rw [List.append_nil]
      exact strchr_digits_none _ hhall
    unfold magicSkin
    simp only [hx, hwa, List.tail_cons, hha, hy]
    simp [hcw, hch, charAt1, displayText, magicDepth]
  | some x =>
    have hxd := hd x rfl
    have hxr := hdr x rfl
    obtain ⟨cx, rx, rfl, hcx, hrx⟩ := isDigits_cons x hxd
    have hname : (magicName (cw :: rw_) (ch :: rh) (some (cx :: rx))).toList
        = (cw :: rw_) ++ 'x' :: ((ch :: rh) ++ 'x' :: ((cx :: rx) ++ [])) := by
      simp [magicName]
    rw [hname]
    have hx := strchr_digits (cw :: rw_) hwall ((ch :: rh) ++ 'x' :: ((cx :: rx) ++ []))
    have hwa := atoi_digits longMax hlong (cw :: rw_) hw hwr
      ('x' :: ((ch :: rh) ++ 'x' :: ((cx :: rx) ++ []))) (stops_x _)
    have hha := atoi_digits longMax hlong (ch :: rh) hh hhr ('x' :: ((cx :: rx) ++ []))
      (stops_x _)
    have hy := strchr_digits (ch :: rh) hhall ((cx :: rx) ++ [])
    have hxa := atoi_digits longMax hlong (cx :: rx) hxd hxr [] stops_nil
    unfold magicSkin
    simp only [hx, hwa, List.tail_cons, hha, hy, hxa]
    simp [hcw, hch, hcx, charAt1, displayText, magicDepth]

theorem digitChar_isdigit : ∀ m, m < 10 → isdigit (Nat.digitChar m) = true := by
  decide

theorem toDigitsCore_isdigit (fuel : Nat) : ∀ (n : Nat) (ds : List Char),
    (∀ c ∈ ds, isdigit c = true) → ∀ c ∈ Nat.toDigitsCore 10 fuel n ds, isdigit c = true := by
  induction fuel with
  | zero =>
    intro n ds hds c hc
    exact hds c hc
  | succ fuel ih =>
    intro n ds hds c hc
    have hd : isdigit (Nat.digitChar (n % 10)) = true :=
      digitChar_isdigit _ (Nat.mod_lt _ (by decide))
    have hds2 : ∀ x ∈ Nat.digitChar (n % 10) :: ds, isdigit x = true := by
      intro x hx
      rcases List.mem_cons.mp hx with rfl | hx
      · exact hd
      · exact hds x hx
    simp only [Nat.toDigitsCore] at hc
    split_ifs at hc with h0
    · exact hds2 c hc
    · exact ih _ _ hds2 c hc

theorem toString_natCast (n : Nat) : toString (n : Int) = String.mk (Nat.toDigits 10 n) := rfl

theorem toDigits_isdigit (n : Nat) : ∀ c ∈ Nat.toDigits 10 n, isdigit c = true :=
  toDigitsCore_isdigit _ n [] (fun _ h => nomatch h)

theorem toDigits_ne_nil (n : Nat) : Nat.toDigits 10 n ≠ [] := by
  have key : ∀ (fuel m : Nat) (ds : List Char), Nat.toDigitsCore 10 (fuel + 1) m ds ≠ [] := by
    intro fuel
    induction fuel with
    | zero =>
      intro m ds
      simp only [Nat.toDigitsCore]
      split_ifs <;> simp
    | succ fuel ih =>
      intro m ds
      rw [Nat.toDigitsCore]
      split_ifs
      · simp
      · exact ih _ _
  exact key n n []

theorem toDigits_length (n : Nat) (h : n ≤ 2 ^ 31 - 1) : (Nat.toDigits 10 n).length ≤ 10 := by
  have := Nat.repr_length n 10 (by decide) (by omega)
  simpa [Nat.repr, String.length, List.asString] using this

theorem lexConfig_word (ws : List Char) (h : ∀ c ∈ ws, isdigit c = true) (rest acc : List Char) :
    lexConfig (ws ++ rest) acc = lexConfig rest (ws.reverse ++ acc) := by
  induction ws generalizing acc with
  | nil => rfl
  | cons c cs ih =>
    have hc := h c (List.mem_cons_self c cs)
    have hb := isdigit_bounds c hc
    have hsp := isspace_digit c hc
    simp only [List.cons_append, lexConfig, hsp, Bool.false_eq_true, if_false]
    rw [if_neg (by omega), if_neg (by omega)]
    have e := ih (fun x hx => h x (List.mem_cons_of_mem c hx)) (c :: acc)
    simp only [List.reverse_cons, List.append_assoc, List.singleton_append]
    exact e

theorem lex_head (rest : List Char) :
    lexConfig ("display \x7b\n  width ".toList ++ rest) []
      = [.text "display", .obrace, .text "width"] ++ lexConfig rest [] := by
  rfl

theorem lex_height (rest acc : List Char) :
    lexConfig ("\n  height ".toList ++ rest) acc
      = flushWord acc ++ ([.text "height"] ++ lexConfig rest []) := by
  rfl

theorem lex_bpp (rest acc : List Char) :
    lexConfig ("\n bpp ".toList ++ rest) acc
      = flushWord acc ++ ([.text "bpp"] ++ lexConfig rest []) := by
  rfl

theorem lex_tail (acc : List Char) :
    lexConfig "\x7d\n".toList acc = flushWord acc ++ [.cbrace] := by
  rfl


theorem flushWord_reverse (ws acc : List Char) (h : ws ≠ []) (hacc : acc = []) :
    flushWord (ws.reverse ++ acc) = [.text (String.mk ws)] := by
  subst hacc
  unfold flushWord
  rw [List.append_nil, if_neg (by simpa using h), List.reverse_reverse]

theorem lexConfig_displayText (a b c : Nat) :
    lexConfig (displayText a b c).toList []
      = [.text "display", .obrace, .text "width", .text (toString (a : Int)),
          .text "height", .text (toString (b : Int)), .text "bpp", .text (toString (c : Int)),
          .cbrace] := by
  have hl : (displayText a b c).toList
      = "display \x7b\n  width ".toList ++ (Nat.toDigits 10 a ++ ("\n  height ".toList ++
          (Nat.toDigits 10 b ++ ("\n bpp ".toList ++ (Nat.toDigits 10 c ++ "\x7d\n".toList))))) := by
    simp only [displayText, toString_natCast, String.toList, String.data_append,
      List.append_assoc]
  rw [hl, lex_head, lexConfig_word _ (toDigits_isdigit a), lex_height,
    flushWord_reverse _ _ (toDigits_ne_nil a) rfl,
    lexConfig_word _ (toDigits_isdigit b), lex_bpp,
    flushWord_reverse _ _ (toDigits_ne_nil b) rfl,
    lexConfig_word _ (toDigits_isdigit c), lex_tail,
    flushWord_reverse _ _ (toDigits_ne_nil c) rfl]
  simp only [toString_natCast, List.cons_append, List.nil_append]

theorem aconfig_load_displayText (a b c : Nat) :
    aconfig_load (aconfig_node "" "") (displayText a b c)
      = specDisplayTree (a : Int) (b : Int) (c : Int) := by
  unfold aconfig_load
  rw [lexConfig_displayText]
  rfl

theorem truncateTo_displayText (a b c : Nat) (ha : a ≤ 2 ^ 31 - 1) (hb : b ≤ 2 ^ 31 - 1)
    (hc : c ≤ 2 ^ 31 - 1) :
    truncateTo 1024 (displayText a b c) = displayText a b c := by
  have hl : (displayText a b c).toList
      = "display \x7b\n  width ".toList ++ (Nat.toDigits 10 a ++ ("\n  height ".toList ++
          (Nat.toDigits 10 b ++ ("\n bpp ".toList ++ (Nat.toDigits 10 c ++ "\x7d\n".toList))))) := by
    simp only [displayText, toString_natCast, String.toList, String.data_append,
      List.append_assoc]
  have h1 := toDigits_length a ha
  have h2 := toDigits_length b hb
  have h3 := toDigits_length c hc
  have hlen : (displayText a b c).toList.length ≤ 1024 - 1 := by
    rw [hl]
    simp only [List.length_append]
    have e1 : "display \x7b\n  width ".toList.length = 18 := by decide
    have e2 : "\n  height ".toList.length = 10 := by decide
    have e3 : "\n bpp ".toList.length = 6 := by decide
    have e4 : "\x7d\n".toList.length = 2 := by decide
    omega
  unfold truncateTo
  rw [List.take_of_length_le hlen]
  rfl


theorem digitChar_value : ∀ m, m < 10 → digitValue (Nat.digitChar m) = m := by
  decide

theorem digitChar_ne_zero : ∀ m, m < 10 → m ≠ 0 → Nat.digitChar m ≠ '0' := by
  decide

theorem strtolDigits_toDigitsCore (fuel : Nat) : ∀ (n : Nat) (ds : List Char), n < fuel →
    strtolDigits 10 (Nat.toDigitsCore 10 fuel n ds) 0 = strtolDigits 10 ds n := by
  induction fuel with
  | zero =>
    intro n ds h
    omega
  | succ fuel ih =>
    intro n ds h
    have hm : n % 10 < 10 := Nat.mod_lt _ (by decide)
    have hv := digitChar_value _ hm
    rw [Nat.toDigitsCore]
    split_ifs with h0
    · simp only [strtolDigits, hv, hm, if_true]
      congr 1
      omega
    · rw [ih (n / 10) _ (by omega)]
      simp only [strtolDigits, hv, hm, if_true]
      congr 1
      omega

theorem toDigitsCore_head (fuel : Nat) : ∀ (n : Nat) (ds : List Char), n < fuel → 0 < n →
    ∃ c rest, Nat.toDigitsCore 10 fuel n ds = c :: rest ∧ isdigit c = true ∧ c ≠ '0' := by
  induction fuel with
  | zero =>
    intro n ds h
    omega
  | succ fuel ih =>
    intro n ds h hpos
    have hm : n % 10 < 10 := Nat.mod_lt _ (by decide)
    rw [Nat.toDigitsCore]
    split_ifs with h0
    · exact ⟨_, _, rfl, digitChar_isdigit _ hm, digitChar_ne_zero _ hm (by omega)⟩
    · exact ih (n / 10) _ (by omega) (by omega)

theorem strtol_toDigits (longMax : Int) (n : Nat) (hn : (n : Int) ≤ longMax) :
    strtol longMax (Nat.toDigits 10 n) 0 = ((n : Int), []) := by
  by_cases h0 : n = 0
  · subst h0
    have e : Nat.toDigits 10 0 = ['0'] := rfl
    rw [e]
    have h1 : min longMax (0 : Int) = 0 := min_eq_right (by omega)
    have h2 : max (-longMax - 1) (0 : Int) = 0 := max_eq_right (by omega)
    simp [strtol, List.dropWhile, isspace, strtolDigits, digitValue, isdigit, h1, h2]
  · have hpos : 0 < n := Nat.pos_of_ne_zero h0
    obtain ⟨c, rest, hcr, hc, hz⟩ := toDigitsCore_head (n + 1) n [] (by omega) hpos
    have hdig := strtolDigits_toDigitsCore (n + 1) n [] (by omega)
    have hb := isdigit_bounds c hc
    have hsp := isspace_digit c hc
    have hminus : c ≠ '-' := ne_of_toNat_ne _ _ (by
      have : ('-' : Char).toNat = 45 := rfl
      omega)
    have hplus : c ≠ '+' := ne_of_toNat_ne _ _ (by
      have : ('+' : Char).toNat = 43 := rfl
      omega)
    have hv : digitValue c < 10 := by
      rw [digitValue_digit c hc]
      omega
    have hdrop : (c :: rest).dropWhile isspace = c :: rest := by
      simp [List.dropWhile, hsp]
    unfold Nat.toDigits
    rw [hcr] at hdig
    rw [hcr]
    unfold strtol
    simp only [hdrop, strtol_sign_none c rest hminus hplus, if_true,
      strtol_base_decimal c rest hz, if_pos hv, hdig, strtolDigits, Bool.false_eq_true, if_false]
    have h1 : min longMax (n : Int) = n := min_eq_right hn
    have h2 : max (-longMax - 1) (n : Int) = n := max_eq_right (by omega)
    rw [h1, h2]

theorem magicDepth_nat (d : Option (List Char))
    (hdr : ∀ x, d = some x → decimalValue x ≤ 2 ^ 31 - 1) :
    ∃ k : Nat, magicDepth d = (k : Int) ∧ k ≤ 2 ^ 31 - 1 := by
  cases d with
  | none => exact ⟨16, rfl, by decide⟩
  | some x => exact ⟨decimalValue x, rfl, hdr x rfl⟩

theorem aconfig_int_specDisplayNode (longMax : Int) (hlong : 2 ^ 31 - 1 ≤ longMax)
    (a b c : Nat) (ha : a ≤ 2 ^ 31 - 1) (hb : b ≤ 2 ^ 31 - 1) (hc : c ≤ 2 ^ 31 - 1)
    (dflt : Int) :
    aconfig_int longMax (specDisplayNode a b c) "width" dflt = a ∧
      aconfig_int longMax (specDisplayNode a b c) "height" dflt = b ∧
      aconfig_int longMax (specDisplayNode a b c) "bpp" dflt = c := by
  have h1 : aconfig_find (specDisplayNode a b c) "width"
      = some (.node "width" (toString (a : Int)) []) := by
    simp [aconfig_find, specDisplayNode, AConfig.children, AConfig.name, List.find?]
  have h2 : aconfig_find (specDisplayNode a b c) "height"
      = some (.node "height" (toString (b : Int)) []) := by
    simp [aconfig_find, specDisplayNode, AConfig.children, AConfig.name, List.find?]
  have h3 : aconfig_find (specDisplayNode a b c) "bpp"
      = some (.node "bpp" (toString (c : Int)) []) := by
    simp [aconfig_find, specDisplayNode, AConfig.children, AConfig.name, List.find?]
  have e : ∀ n : Nat, (toString (n : Int)).toList = Nat.toDigits 10 n := fun _ => rfl
  unfold aconfig_int
  simp only [h1, h2, h3, AConfig.value, e]
  rw [strtol_toDigits longMax a (by omega), strtol_toDigits longMax b (by omega),
    strtol_toDigits longMax c (by omega)]
  exact ⟨wrapInt32_small a ha, wrapInt32_small b hb, wrapInt32_small c hc⟩

/-- C11, amended: for every skin name `<width>x<height>` or
`<width>x<height>x<depth>` whose components are non-empty runs of decimal digits
with values of at most 2147483647 (the range of `int`), on a platform whose
`LONG_MAX` is at least that, `parse_skin_files` returns; the tree holds nothing
but a display node, found by the display lookup, whose width and height read
back as exactly the given values and whose bpp as the given depth (16 when it is
omitted); the base path is ":"; and the result does not depend on any layout
file. -/
theorem parse_skin_files_magic (host : Host) (skinDirPath : Option String)
    (hw : AndroidHwConfig) (w h : List Char) (d : Option (List Char))
    (hlong : 2 ^ 31 - 1 ≤ host.LONG_MAX)
    (hwd : isDigits w = true) (hhd : isDigits h = true)
    (hdd : ∀ x, d = some x → isDigits x = true)
    (hwr : decimalValue w ≤ 2 ^ 31 - 1) (hhr : decimalValue h ≤ 2 ^ 31 - 1)
    (hdr : ∀ x, d = some x → decimalValue x ≤ 2 ^ 31 - 1) :
    parse_skin_files host skinDirPath (some (magicName w h d)) hw
        = .ok (foundSkin host.LONG_MAX
            (specDisplayTree (decimalValue w) (decimalValue h) (magicDepth d)) ":" hw) ∧
      findDisplay (specDisplayTree (decimalValue w) (decimalValue h) (magicDepth d))
        = some (specDisplayNode (decimalValue w) (decimalValue h) (magicDepth d)) ∧
      (∀ dflt : Int,
        aconfig_int host.LONG_MAX
            (specDisplayNode (decimalValue w) (decimalValue h) (magicDepth d)) "width" dflt
          = decimalValue w ∧
        aconfig_int host.LONG_MAX
            (specDisplayNode (decimalValue w) (decimalValue h) (magicDepth d)) "height" dflt
          = decimalValue h ∧
        aconfig_int host.LONG_MAX
            (specDisplayNode (decimalValue w) (decimalValue h) (magicDepth d)) "bpp" dflt
          = magicDepth d) := by
  obtain ⟨k, hk, hkr⟩ := magicDepth_nat d hdr
  refine ⟨?_, ?_, ?_⟩
  · obtain ⟨cw, rw_, hwe, hcw, _⟩ := isDigits_cons w hwd
    have hname : magicName w h d = String.mk (cw :: (magicName w h d).toList.tail) := by
      rw [hwe]
      rfl
    have halias : aliasedSkinName host skinDirPath (magicName w h d) = magicName w h d := by
      rw [hname]
      exact aliasedSkinName_digit host skinDirPath cw _ hcw
    have hmagic := magicSkin_digits host.LONG_MAX hlong w h d hwd hhd hdd hwr hhr hdr
    unfold parse_skin_files
    simp only [halias, hmagic]
    rw [hk, truncateTo_displayText _ _ _ hwr hhr hkr, aconfig_load_displayText]
  · simp [findDisplay, aconfig_find, specDisplayTree, specDisplayNode, AConfig.children,
      AConfig.name, List.find?]
  · intro dflt
    rw [hk]
    exact aconfig_int_specDisplayNode host.LONG_MAX hlong _ _ k hwr hhr hkr dflt


set_option maxRecDepth 100000 in
/-- Witness of C11 (amended): the skin name "240x320x32". -/
theorem parse_skin_files_magic_witness :
    magicName "240".toList "320".toList (some "32".toList) = "240x320x32" ∧
      parse_skin_files lp64Host (some "skins") (some "240x320x32") namedHwConfig
        = .ok (foundSkin lp64Host.LONG_MAX (specDisplayTree 240 320 32) ":" namedHwConfig) ∧
      lcdOf (foundSkin lp64Host.LONG_MAX (specDisplayTree 240 320 32) ":" namedHwConfig).hwConfig
        = (240, 320, 32) :=
  ⟨by decide,
    (parse_skin_files_magic lp64Host (some "skins") namedHwConfig "240".toList "320".toList
      (some "32".toList) (by decide) (by decide) (by decide)
      (by intro x hx; cases hx; decide) (by decide) (by decide)
      (by intro x hx; cases hx; decide)).1,
    by decide⟩

set_option maxRecDepth 100000 in
/-- C11, as stated, fails: the width of the skin name "4294967296x4" does not fit
an `int`; where `long` has 64 bits `atoi` yields 0, the display node holds width
0 instead of 4294967296, and the node is then ignored by the merge. -/
theorem parse_skin_files_magic_overflow :
    (parse_skin_files lp64Host none (some "4294967296x4") namedHwConfig).toOption.map
        (fun r => ((findDisplay r.skinConfig).map
            (fun n => (aconfig_int lp64Host.LONG_MAX n "width" 7,
              aconfig_int lp64Host.LONG_MAX n "height" 7)),
          r.skinPath, lcdOf r.hwConfig))
      = some (some (0, 4), ":", (321, 481, 24)) := by
  decide

end AndroidEmulator
